import Mathlib

/-!
Verification of the binance_trading_bot core against its specification.

The Python sources are shallowly embedded: prices, volumes and scores are
modelled as rationals, candle dictionaries as records, per-object mutable
state as explicit state records, and each Python method as a pure Lean
function translated statement by statement from the source file named in
its doc comment.  Divisions that can raise ZeroDivisionError in Python are
additionally modelled in an Except monad where the claim is about guarding.
-/

namespace TradingBot

/-- One OHLCV candle as the monitors see it: the dict produced by
Database.get_recent_candles / the websocket stream.  The indicator field
macdHist mirrors candle.get('macd_hist', 0) with the absent-key default
already applied. -/
structure Candle where
  open_ : ℚ
  high : ℚ
  low : ℚ
  close : ℚ
  turnover : ℚ
  trades : ℚ
  macdHist : ℚ := 0
  deriving DecidableEq, Repr

/-- Round-half-to-even of a rational to an integer, the rounding mode of
Python's builtin round(). -/
def roundHalfEven (x : ℚ) : ℤ :=
  let f : ℤ := ⌊x⌋
  let r : ℚ := x - f
  if r < 1/2 then f
  else if 1/2 < r then f + 1
  else if f % 2 = 0 then f else f + 1

/-- Python round(x, 2) (banker's rounding at two decimal places; exact on
the beauty-score sums, which are multiples of 1/2 and hence carry no
binary-float error). -/
def pyRound2 (x : ℚ) : ℚ :=
  (roundHalfEven (100 * x) : ℚ) / 100

namespace BeautyScorer

/-- Per-candle volatility points of BeautyScorer._calculate_volatility
(src/beauty_scorer.py lines 63-73): 10 points if the wick share of the
range is at most 20%, 5 if at most 30%, else 0; a non-positive range is
scored as wick share 0. -/
def volatilityPts (c : Candle) : ℚ :=
  let tr := c.high - c.low
  let body := |c.close - c.open_|
  let wickPct := if tr > 0 then (tr - body) / tr * 100 else 0
  if wickPct ≤ 20 then 10 else if wickPct ≤ 30 then 5 else 0

/-- BeautyScorer._calculate_volatility: sum of per-candle points. -/
def calcVolatility (cs : List Candle) : ℚ :=
  (cs.map volatilityPts).sum

/-- Count of consecutive pairs of the window satisfying p. -/
def countPairs (p : Candle → Candle → Bool) (cs : List Candle) : ℕ :=
  (cs.zip cs.tail).countP fun ab => p ab.1 ab.2

/-- BeautyScorer._calculate_volume (src/beauty_scorer.py lines 76-84):
25 points split evenly over the consecutive pairs, awarded per pair with
non-decreasing turnover. -/
def calcVolume (cs : List Candle) : ℚ :=
  let pairs : ℤ := (cs.length : ℤ) - 1
  let ptsPerStep : ℚ := 25 / (pairs : ℚ)
  (countPairs (fun a b => b.turnover ≥ a.turnover) cs : ℚ) * ptsPerStep

/-- BeautyScorer._calculate_gapless (src/beauty_scorer.py lines 87-96):
25 points split evenly over the consecutive pairs, awarded per pair whose
next open is at or above the prior close. -/
def calcGapless (cs : List Candle) : ℚ :=
  let pairs : ℤ := (cs.length : ℤ) - 1
  let ptsPerStep : ℚ := 25 / (pairs : ℚ)
  (countPairs (fun a b => b.open_ ≥ a.close) cs : ℚ) * ptsPerStep

/-- Gain percentage over the window: (last close - first open)/first open × 100. -/
def windowGain (cs : List Candle) : ℚ :=
  match cs.head?, cs.getLast? with
  | some f, some l => (l.close - f.open_) / f.open_ * 100
  | _, _ => 0

/-- BeautyScorer._calculate_gain (src/beauty_scorer.py lines 99-129),
bracket system with GAIN_MIN = 0.5 and GAIN_MAX = 2.5. -/
def calcGain (cs : List Candle) : ℚ :=
  let gain := windowGain cs
  if gain ≤ 1/2 then 0
  else if gain > 5/2 then 0
  else if gain ≤ 3/4 then 5
  else if gain ≤ 1 then 10
  else 20

/-- BeautyScorer.calculate (src/beauty_scorer.py lines 35-60): the rounded
sum of the four sub-scores, 0 on windows shorter than 2 candles. -/
def calculate (cs : List Candle) : ℚ :=
  if cs.length < 2 then 0
  else pyRound2 (calcVolatility cs + calcVolume cs + calcGapless cs + calcGain cs)

end BeautyScorer

namespace BeautyScorer

lemma volatilityPts_nonneg (c : Candle) : 0 ≤ volatilityPts c := by
  unfold volatilityPts
  dsimp only
  split_ifs <;> norm_num

lemma volatilityPts_le (c : Candle) : volatilityPts c ≤ 10 := by
  unfold volatilityPts
  dsimp only
  split_ifs <;> norm_num

lemma calcVolatility_bounds (cs : List Candle) :
    0 ≤ calcVolatility cs ∧ calcVolatility cs ≤ 10 * cs.length := by
  induction cs with
  | nil => simp [calcVolatility]
  | cons c cs ih =>
    have h1 := volatilityPts_nonneg c
    have h2 := volatilityPts_le c
    obtain ⟨ih1, ih2⟩ := ih
    constructor
    · simpa [calcVolatility] using add_nonneg h1 ih1
    · have : calcVolatility (c :: cs) = volatilityPts c + calcVolatility cs := by
        simp [calcVolatility]
      rw [this, List.length_cons]
      push_cast
      linarith

lemma countPairs_le (p : Candle → Candle → Bool) (cs : List Candle) (h : 1 ≤ cs.length) :
    (countPairs p cs : ℤ) ≤ (cs.length : ℤ) - 1 := by
  have hz : (cs.zip cs.tail).length = cs.length - 1 := by
    rw [List.length_zip, List.length_tail]
    omega
  have := List.countP_le_length (l := cs.zip cs.tail) (p := fun ab => p ab.1 ab.2)
  unfold countPairs
  omega

lemma pairScore_bounds (n : ℕ) (k : ℕ) (hn : 2 ≤ n) (hk : (k : ℤ) ≤ (n : ℤ) - 1) :
    0 ≤ (k : ℚ) * (25 / (((n : ℤ) - 1 : ℤ) : ℚ)) ∧
      (k : ℚ) * (25 / (((n : ℤ) - 1 : ℤ) : ℚ)) ≤ 25 := by
  have hpos : (0 : ℚ) < (((n : ℤ) - 1 : ℤ) : ℚ) := by
    have : (1 : ℤ) ≤ (n : ℤ) - 1 := by omega
    exact_mod_cast lt_of_lt_of_le zero_lt_one (by exact_mod_cast this)
  have hkq : (k : ℚ) ≤ (((n : ℤ) - 1 : ℤ) : ℚ) := by exact_mod_cast hk
  constructor
  · positivity
  · calc (k : ℚ) * (25 / (((n : ℤ) - 1 : ℤ) : ℚ))
        ≤ (((n : ℤ) - 1 : ℤ) : ℚ) * (25 / (((n : ℤ) - 1 : ℤ) : ℚ)) := by
          apply mul_le_mul_of_nonneg_right hkq
          positivity
    _ = 25 := by
          have hpos2 : (0 : ℚ) < (n : ℚ) - 1 := by push_cast at hpos ⊢; linarith
          field_simp

lemma calcVolume_bounds (cs : List Candle) (h : 2 ≤ cs.length) :
    0 ≤ calcVolume cs ∧ calcVolume cs ≤ 25 := by
  unfold calcVolume
  have h1 : 1 ≤ cs.length := le_trans (by norm_num) h
  exact pairScore_bounds cs.length _ h (countPairs_le _ cs h1)

lemma calcGapless_bounds (cs : List Candle) (h : 2 ≤ cs.length) :
    0 ≤ calcGapless cs ∧ calcGapless cs ≤ 25 := by
  unfold calcGapless
  have h1 : 1 ≤ cs.length := le_trans (by norm_num) h
  exact pairScore_bounds cs.length _ h (countPairs_le _ cs h1)

lemma calcGain_bounds (cs : List Candle) : 0 ≤ calcGain cs ∧ calcGain cs ≤ 20 := by
  unfold calcGain
  dsimp only
  split
  · norm_num
  · split
    · norm_num
    · split
      · norm_num
      · split <;> norm_num

end BeautyScorer

lemma pyRound2_bounds (x : ℚ) (h0 : 0 ≤ x) (h100 : x ≤ 100) :
    0 ≤ pyRound2 x ∧ pyRound2 x ≤ 100 := by
  unfold pyRound2 roundHalfEven
  dsimp only
  have hfl : (0 : ℤ) ≤ ⌊100 * x⌋ := by
    apply Int.floor_nonneg.2
    positivity
  have hfu : ⌊100 * x⌋ ≤ 10000 := by
    have : (100 : ℚ) * x ≤ 10000 := by linarith
    calc ⌊100 * x⌋ ≤ ⌊(10000 : ℚ)⌋ := Int.floor_le_floor this
    _ = 10000 := by norm_num
  have hsucc : ¬ (100 * x - (⌊100 * x⌋ : ℚ) < 1/2) → ⌊100 * x⌋ + 1 ≤ 10000 := by
    intro hr
    push_neg at hr
    have hle : (⌊100 * x⌋ : ℚ) + 1/2 ≤ 100 * x := by linarith
    have : ((⌊100 * x⌋ + 1 : ℤ) : ℚ) < 10001 := by
      push_cast
      have hfloor := Int.floor_le (100 * x)
      have : (100 : ℚ) * x ≤ 10000 := by linarith
      linarith
    have h2 : (⌊100 * x⌋ + 1 : ℤ) < 10001 := by exact_mod_cast this
    omega
  constructor
  · split
    · positivity
    · split
      · have : (0 : ℤ) ≤ ⌊100 * x⌋ + 1 := by omega
        positivity
      · split
        · positivity
        · have : (0 : ℤ) ≤ ⌊100 * x⌋ + 1 := by omega
          positivity
  · have hdiv : ∀ z : ℤ, z ≤ 10000 → ((z : ℚ)) / 100 ≤ 100 := by
      intro z hz
      have : (z : ℚ) ≤ 10000 := by exact_mod_cast hz
      linarith
    split
    · exact hdiv _ hfu
    · next hr =>
      split
      · exact_mod_cast hdiv _ (hsucc hr)
      · split
        · exact hdiv _ hfu
        · exact_mod_cast hdiv _ (hsucc hr)

namespace BeautyScorer

/-- A candle satisfies the claim's low-wick condition: wick share of the
range at most 20% (trivially granted on a degenerate zero range, which the
source scores as wick share 0). -/
def LowWick (c : Candle) : Prop :=
  c.high - c.low > 0 → (c.high - c.low - |c.close - c.open_|) / (c.high - c.low) * 100 ≤ 20

instance (c : Candle) : Decidable (LowWick c) := by
  unfold LowWick
  infer_instance

lemma volatilityPts_of_lowWick (c : Candle) (h : LowWick c) : volatilityPts c = 10 := by
  unfold LowWick at h
  unfold volatilityPts
  dsimp only
  by_cases h1 : c.high - c.low > 0
  · rw [if_pos h1, if_pos (h h1)]
  · rw [if_neg h1, if_pos (by norm_num)]

end BeautyScorer

/-- The perfect 2-candle window of the claim: zero wicks, contiguous, equal
turnover, total gain 2%. -/
def bs2c1 : Candle := { open_ := 100, high := 101, low := 100, close := 101, turnover := 10, trades := 1 }

/-- Second candle of the perfect 2-candle window. -/
def bs2c2 : Candle := { open_ := 101, high := 102, low := 101, close := 102, turnover := 10, trades := 1 }

/-- First candle of a 4-candle window on which the score exceeds 100. -/
def bs4c1 : Candle := { open_ := 100, high := 100.3, low := 100, close := 100.3, turnover := 5, trades := 1 }

/-- Second candle of the 4-candle window. -/
def bs4c2 : Candle := { open_ := 100.3, high := 100.6, low := 100.3, close := 100.6, turnover := 5, trades := 1 }

/-- Third candle of the 4-candle window. -/
def bs4c3 : Candle := { open_ := 100.6, high := 100.9, low := 100.6, close := 100.9, turnover := 5, trades := 1 }

/-- Fourth candle of the 4-candle window. -/
def bs4c4 : Candle := { open_ := 100.9, high := 101.2, low := 100.9, close := 101.2, turnover := 5, trades := 1 }

/-- C3 counterexample: the concrete 2-candle window bs2c1, bs2c2 satisfies
every premise of the claim (non-decreasing turnover, zero gap, low wicks,
gain 2% in (1.0, 2.5]), yet BeautyScorer.calculate returns 90, not 100 —
volatility contributes at most 10 points per candle so a 2-candle window
can reach at most 20+25+25+20 = 90.  Moreover the returned score is not
always within [0,100]: the 4-candle window bs4c1..bs4c4 scores 110. -/
theorem C3_counterexample :
    (bs2c1.turnover ≤ bs2c2.turnover ∧ bs2c1.close ≤ bs2c2.open_ ∧
      BeautyScorer.LowWick bs2c1 ∧ BeautyScorer.LowWick bs2c2 ∧
      1 < (bs2c2.close - bs2c1.open_) / bs2c1.open_ * 100 ∧
      (bs2c2.close - bs2c1.open_) / bs2c1.open_ * 100 ≤ 5/2 ∧
      BeautyScorer.calculate [bs2c1, bs2c2] = 90 ∧
      BeautyScorer.calculate [bs2c1, bs2c2] ≠ 100) ∧
    100 < BeautyScorer.calculate [bs4c1, bs4c2, bs4c3, bs4c4] := by
  refine ⟨⟨by norm_num [bs2c1, bs2c2], by norm_num [bs2c1, bs2c2], ?_, ?_, ?_, ?_, ?_, ?_⟩, ?_⟩
  · norm_num [BeautyScorer.LowWick, bs2c1]
  · norm_num [BeautyScorer.LowWick, bs2c2]
  · norm_num [bs2c1, bs2c2]
  · norm_num [bs2c1, bs2c2]
  · norm_num [BeautyScorer.calculate, BeautyScorer.calcVolatility, BeautyScorer.volatilityPts,
      BeautyScorer.calcVolume, BeautyScorer.calcGapless, BeautyScorer.calcGain,
      BeautyScorer.countPairs, BeautyScorer.windowGain, pyRound2, roundHalfEven,
      bs2c1, bs2c2, List.countP, List.countP.go, abs_of_nonneg]
  · norm_num [BeautyScorer.calculate, BeautyScorer.calcVolatility, BeautyScorer.volatilityPts,
      BeautyScorer.calcVolume, BeautyScorer.calcGapless, BeautyScorer.calcGain,
      BeautyScorer.countPairs, BeautyScorer.windowGain, pyRound2, roundHalfEven,
      bs2c1, bs2c2, List.countP, List.countP.go, abs_of_nonneg]
  · norm_num [BeautyScorer.calculate, BeautyScorer.calcVolatility, BeautyScorer.volatilityPts,
      BeautyScorer.calcVolume, BeautyScorer.calcGapless, BeautyScorer.calcGain,
      BeautyScorer.countPairs, BeautyScorer.windowGain, pyRound2, roundHalfEven,
      bs4c1, bs4c2, bs4c3, bs4c4, List.countP, List.countP.go, abs_of_nonneg]

/-- C3 (amended): a 2-candle window with non-decreasing turnover, zero gap,
low wicks, and gain in (1.0, 2.5] scores exactly 90 — the 2-candle maximum,
since the volatility term contributes 10 points per candle rather than a
normalised 30; and on the window sizes the program uses (2 or 3 candles)
the score always lies in [0, 100]. -/
theorem C3_beauty_score :
    (∀ c1 c2 : Candle,
      c1.turnover ≤ c2.turnover →
      c1.close ≤ c2.open_ →
      BeautyScorer.LowWick c1 →
      BeautyScorer.LowWick c2 →
      1 < (c2.close - c1.open_) / c1.open_ * 100 →
      (c2.close - c1.open_) / c1.open_ * 100 ≤ 5/2 →
      BeautyScorer.calculate [c1, c2] = 90) ∧
    (∀ cs : List Candle, cs.length = 2 ∨ cs.length = 3 →
      0 ≤ BeautyScorer.calculate cs ∧ BeautyScorer.calculate cs ≤ 100) := by
  constructor
  · intro c1 c2 hvol hgap hw1 hw2 hg1 hg2
    have e1 : BeautyScorer.calcVolatility [c1, c2] = 20 := by
      simp [BeautyScorer.calcVolatility, BeautyScorer.volatilityPts_of_lowWick c1 hw1,
        BeautyScorer.volatilityPts_of_lowWick c2 hw2]
      norm_num
    have e2 : BeautyScorer.calcVolume [c1, c2] = 25 := by
      simp [BeautyScorer.calcVolume, BeautyScorer.countPairs, List.countP, List.countP.go, hvol]
    have e3 : BeautyScorer.calcGapless [c1, c2] = 25 := by
      simp [BeautyScorer.calcGapless, BeautyScorer.countPairs, List.countP, List.countP.go, hgap]
    have e4 : BeautyScorer.calcGain [c1, c2] = 20 := by
      unfold BeautyScorer.calcGain
      have hw : BeautyScorer.windowGain [c1, c2] = (c2.close - c1.open_) / c1.open_ * 100 := by
        simp [BeautyScorer.windowGain]
      rw [hw]
      dsimp only
      split_ifs <;> linarith
    have : BeautyScorer.calculate [c1, c2] = pyRound2 90 := by
      unfold BeautyScorer.calculate
      rw [if_neg (by norm_num)]
      rw [e1, e2, e3, e4]
      norm_num
    rw [this]
    norm_num [pyRound2, roundHalfEven]
  · intro cs hlen
    have h2 : 2 ≤ cs.length := by omega
    obtain ⟨v0, v1⟩ := BeautyScorer.calcVolatility_bounds cs
    obtain ⟨w0, w1⟩ := BeautyScorer.calcVolume_bounds cs h2
    obtain ⟨g0, g1⟩ := BeautyScorer.calcGapless_bounds cs h2
    obtain ⟨n0, n1⟩ := BeautyScorer.calcGain_bounds cs
    have hvol30 : BeautyScorer.calcVolatility cs ≤ 30 := by
      have : (cs.length : ℚ) ≤ 3 := by
        rcases hlen with h | h <;> rw [h] <;> norm_num
      nlinarith
    unfold BeautyScorer.calculate
    rw [if_neg (by omega)]
    exact pyRound2_bounds _ (by linarith) (by linarith)

/-- C3 witness: the amended theorem applied to the concrete perfect window
bs2c1, bs2c2 and to the 2-element window as a size check. -/
theorem C3_beauty_score_witness :
    BeautyScorer.calculate [bs2c1, bs2c2] = 90 ∧
      (0 ≤ BeautyScorer.calculate [bs2c1, bs2c2] ∧ BeautyScorer.calculate [bs2c1, bs2c2] ≤ 100) :=
  ⟨C3_beauty_score.1 bs2c1 bs2c2 (by norm_num [bs2c1, bs2c2]) (by norm_num [bs2c1, bs2c2])
      (by norm_num [BeautyScorer.LowWick, bs2c1]) (by norm_num [BeautyScorer.LowWick, bs2c2])
      (by norm_num [bs2c1, bs2c2]) (by norm_num [bs2c1, bs2c2]),
    C3_beauty_score.2 [bs2c1, bs2c2] (by norm_num)⟩

/-! ## Indicator pipeline (src/database.py, src/gap_recovery.py) -/

/-- The EMA carry held between candles: the last row's ema9/ema20/ema300/
ema12/ema26/dea — the ema_chain dict of GapRecovery.recover_gap and the
prev row read by Database._calculate_indicators.  The claim concerns runs
whose carried values all exist, so fields are plain rationals. -/
structure IndicatorChain where
  ema9 : ℚ
  ema20 : ℚ
  ema300 : ℚ
  ema12 : ℚ
  ema26 : ℚ
  dea : ℚ
  deriving DecidableEq, Repr

/-- A full per-candle indicator record. -/
structure IndicatorValues where
  ema9 : ℚ
  ema20 : ℚ
  ema300 : ℚ
  ema12 : ℚ
  ema26 : ℚ
  dif : ℚ
  dea : ℚ
  macdHist : ℚ
  deriving DecidableEq, Repr

/-- The carry part of a full indicator record. -/
def IndicatorValues.chain (v : IndicatorValues) : IndicatorChain :=
  { ema9 := v.ema9, ema20 := v.ema20, ema300 := v.ema300,
    ema12 := v.ema12, ema26 := v.ema26, dea := v.dea }

namespace GapRecovery

/-- GapRecovery._update_ema (src/gap_recovery.py lines 188-191). -/
def updateEma (prevEma price : ℚ) (period : ℕ) : ℚ :=
  let alpha : ℚ := 2 / ((period : ℚ) + 1)
  alpha * price + (1 - alpha) * prevEma

/-- GapRecovery._calculate_indicators_sequential (src/gap_recovery.py
lines 170-186). -/
def calcIndicatorsSequential (currentClose : ℚ) (emaChain : IndicatorChain) : IndicatorValues :=
  let ema9 := updateEma emaChain.ema9 currentClose 9
  let ema20 := updateEma emaChain.ema20 currentClose 20
  let ema300 := updateEma emaChain.ema300 currentClose 300
  let ema12 := updateEma emaChain.ema12 currentClose 12
  let ema26 := updateEma emaChain.ema26 currentClose 26
  let dif := ema12 - ema26
  let dea := updateEma emaChain.dea dif 9
  let macdHist := dif - dea
  { ema9 := ema9, ema20 := ema20, ema300 := ema300, ema12 := ema12,
    ema26 := ema26, dif := dif, dea := dea, macdHist := macdHist }

/-- The sequential backfill loop of GapRecovery.recover_gap (src/gap_recovery.py
lines 137-155): one candle close at a time, carrying the updated ema chain. -/
def backfill (start : IndicatorChain) (closes : List ℚ) : IndicatorChain :=
  closes.foldl (fun chain cl => (calcIndicatorsSequential cl chain).chain) start

/-- Final full indicator values of a non-empty backfill run. -/
def backfillLast (start : IndicatorChain) (closes : List ℚ) : Option IndicatorValues :=
  match closes with
  | [] => none
  | cl :: rest => some (rest.foldl
      (fun v cl2 => calcIndicatorsSequential cl2 v.chain)
      (calcIndicatorsSequential cl start))

end GapRecovery

namespace Database

/-- Database._update_ema (src/database.py lines 233-239), in the case where
the previous value exists (the claim starts from a populated IndicatorState). -/
def updateEma (prevEma price : ℚ) (period : ℕ) : ℚ :=
  let alpha : ℚ := 2 / ((period : ℚ) + 1)
  alpha * price + (1 - alpha) * prevEma

/-- Database._calculate_indicators (src/database.py lines 186-231) for a
non-empty table: the previous row supplies the stored ema9..ema26 and dea. -/
def calcIndicators (prev : IndicatorChain) (currentClose : ℚ) : IndicatorValues :=
  let ema9 := updateEma prev.ema9 currentClose 9
  let ema20 := updateEma prev.ema20 currentClose 20
  let ema300 := updateEma prev.ema300 currentClose 300
  let ema12 := updateEma prev.ema12 currentClose 12
  let ema26 := updateEma prev.ema26 currentClose 26
  let dif := ema12 - ema26
  let dea := updateEma prev.dea dif 9
  let macdHist := dif - dea
  { ema9 := ema9, ema20 := ema20, ema300 := ema300, ema12 := ema12,
    ema26 := ema26, dif := dif, dea := dea, macdHist := macdHist }

/-- Feeding candles one by one through Database.add_candle (src/database.py
lines 101-142): each inserted row becomes the previous row of the next
_calculate_indicators call. -/
def appendRun (start : IndicatorChain) (closes : List ℚ) : IndicatorChain :=
  closes.foldl (fun chain cl => (calcIndicators chain cl).chain) start

/-- Final full indicator values of a non-empty append run. -/
def appendRunLast (start : IndicatorChain) (closes : List ℚ) : Option IndicatorValues :=
  match closes with
  | [] => none
  | cl :: rest => some (rest.foldl
      (fun v cl2 => calcIndicators v.chain cl2)
      (calcIndicators start cl))

end Database

/-- C4: starting from any IndicatorState and replaying any candle-close
sequence in order, GapRecovery's sequential backfill computes exactly the
same ema9/ema20/ema300/ema12/ema26/dif/dea/macd-histogram values as
Database.add_candle's incremental indicator calculation: the per-candle
updates agree, the final carried chains agree, and the final full
indicator records agree. -/
theorem C4_backfill_refines_append :
    (∀ (chain : IndicatorChain) (cl : ℚ),
      GapRecovery.calcIndicatorsSequential cl chain = Database.calcIndicators chain cl) ∧
    (∀ (start : IndicatorChain) (closes : List ℚ),
      GapRecovery.backfill start closes = Database.appendRun start closes) ∧
    (∀ (start : IndicatorChain) (closes : List ℚ),
      GapRecovery.backfillLast start closes = Database.appendRunLast start closes) := by
  have hstep : ∀ (chain : IndicatorChain) (cl : ℚ),
      GapRecovery.calcIndicatorsSequential cl chain = Database.calcIndicators chain cl := by
    intro chain cl
    rfl
  refine ⟨hstep, ?_, ?_⟩
  · intro start closes
    unfold GapRecovery.backfill Database.appendRun
    induction closes generalizing start with
    | nil => rfl
    | cons cl rest ih => simp [List.foldl_cons, hstep, ih]
  · intro start closes
    unfold GapRecovery.backfillLast Database.appendRunLast
    cases closes with
    | nil => rfl
    | cons cl rest =>
      simp only [Option.some.injEq]
      rw [hstep]
      induction rest generalizing start with
      | nil => rfl
      | cons cl2 rest2 ih => simp [List.foldl_cons, hstep, ih]

/-! ## CapitalAllocator (src/capital_allocator.py) -/

namespace CapitalAllocator

/-- The per-timeframe allocation table (the allocations_1min /
allocations_5min dict), in insertion order. -/
abbrev Allocations := List (String × ℚ)

/-- sum(allocations.values()). -/
def sumAlloc (a : Allocations) : ℚ :=
  (a.map Prod.snd).sum

/-- Symbol membership in the allocation table. -/
def hasSymbol (a : Allocations) (symbol : String) : Bool :=
  a.any fun p => p.1 == symbol

/-- CapitalAllocator.allocate (src/capital_allocator.py lines 34-53) for
one timeframe: pool is the timeframe's fixed pool, maxPositions the
config.TRADING max_positions entry.  Returns the allocated amount and
the updated table. -/
def allocate (pool : ℚ) (maxPositions : ℕ) (a : Allocations) (symbol : String) :
    ℚ × Allocations :=
  if hasSymbol a symbol then (0, a)
  else
    let allocated := sumAlloc a
    let available := pool - allocated
    let capitalPerPosition := pool / (maxPositions : ℚ)
    let capital := min capitalPerPosition available
    if capital > 0 then (capital, a ++ [(symbol, capital)])
    else (capital, a)

/-- CapitalAllocator.release (src/capital_allocator.py lines 55-59). -/
def release (a : Allocations) (symbol : String) : Allocations :=
  a.filter fun p => ¬ p.1 == symbol

/-- One call against the allocator of a fixed timeframe. -/
inductive Op where
  | alloc (symbol : String)
  | rel (symbol : String)
  deriving DecidableEq, Repr

/-- The allocation table reached from the empty initial table by a call
sequence. -/
def runOps (pool : ℚ) (maxPositions : ℕ) (ops : List Op) : Allocations :=
  ops.foldl
    (fun a op =>
      match op with
      | Op.alloc s => (allocate pool maxPositions a s).2
      | Op.rel s => release a s)
    []

lemma sumAlloc_append (a : Allocations) (p : String × ℚ) :
    sumAlloc (a ++ [p]) = sumAlloc a + p.2 := by
  simp [sumAlloc]

lemma sumAlloc_le_of_release (a : Allocations) (s : String)
    (hpos : ∀ p ∈ a, 0 < p.2) : sumAlloc (release a s) ≤ sumAlloc a := by
  induction a with
  | nil => simp [release, sumAlloc]
  | cons q a ih =>
    have hq := hpos q (by simp)
    have ih2 := ih fun p hp => hpos p (by simp [hp])
    by_cases hqs : (q.1 == s) = true
    · simp only [release, List.filter_cons] at ih2 ⊢
      rw [if_neg (by simp [hqs])]
      simp only [sumAlloc, List.map_cons, List.sum_cons]
      have : sumAlloc (List.filter (fun p => ¬ p.1 == s) a) ≤ sumAlloc a := ih2
      simp only [sumAlloc] at this
      linarith
    · simp only [release, List.filter_cons] at ih2 ⊢
      rw [if_pos (by simp [hqs])]
      simp only [sumAlloc, List.map_cons, List.sum_cons]
      have : sumAlloc (List.filter (fun p => ¬ p.1 == s) a) ≤ sumAlloc a := ih2
      simp only [sumAlloc] at this
      linarith

/-- The inductive invariant: all recorded allocations are positive and
their sum never exceeds the pool. -/
def Inv (pool : ℚ) (a : Allocations) : Prop :=
  (∀ p ∈ a, 0 < p.2) ∧ sumAlloc a ≤ pool

lemma inv_allocate (pool : ℚ) (maxPositions : ℕ) (a : Allocations) (s : String)
    (h : Inv pool a) : Inv pool (allocate pool maxPositions a s).2 := by
  obtain ⟨hpos, hsum⟩ := h
  unfold allocate
  by_cases hmem : hasSymbol a s
  · rw [if_pos hmem]
    exact ⟨hpos, hsum⟩
  · rw [if_neg hmem]
    dsimp only
    by_cases hcap : min (pool / (maxPositions : ℚ)) (pool - sumAlloc a) > 0
    · rw [if_pos hcap]
      dsimp only
      constructor
      · intro p hp
        rcases List.mem_append.1 hp with hp | hp
        · exact hpos p hp
        · simp only [List.mem_singleton] at hp
          rw [hp]
          exact hcap
      · rw [sumAlloc_append]
        have : min (pool / (maxPositions : ℚ)) (pool - sumAlloc a) ≤ pool - sumAlloc a :=
          min_le_right _ _
        dsimp only
        linarith
    · rw [if_neg hcap]
      exact ⟨hpos, hsum⟩

lemma inv_release (pool : ℚ) (a : Allocations) (s : String)
    (h : Inv pool a) : Inv pool (release a s) := by
  obtain ⟨hpos, hsum⟩ := h
  constructor
  · intro p hp
    exact hpos p (List.mem_of_mem_filter hp)
  · exact le_trans (sumAlloc_le_of_release a s hpos) hsum

lemma inv_runOps (pool : ℚ) (maxPositions : ℕ) (hpool : 0 ≤ pool) (ops : List Op) :
    Inv pool (runOps pool maxPositions ops) := by
  suffices h : ∀ a, Inv pool a → Inv pool (ops.foldl
      (fun a op =>
        match op with
        | Op.alloc s => (allocate pool maxPositions a s).2
        | Op.rel s => release a s)
      a) by
    exact h [] ⟨by simp, by simp [sumAlloc, hpool]⟩
  induction ops with
  | nil => intro a ha; exact ha
  | cons op ops ih =>
    intro a ha
    cases op with
    | alloc s => exact ih _ (inv_allocate pool maxPositions a s ha)
    | rel s => exact ih _ (inv_release pool a s ha)

end CapitalAllocator

/-- C7: for every state of the allocator reachable from the empty table by
any sequence of allocate and release calls for a timeframe with a
non-negative pool, the sum of recorded allocations never exceeds the pool;
and allocate for a symbol that already has an allocation returns 0.0 and
leaves the table unchanged. -/
theorem C7_capital_allocator (pool : ℚ) (maxPositions : ℕ) (hpool : 0 ≤ pool) :
    (∀ ops : List CapitalAllocator.Op,
      CapitalAllocator.sumAlloc (CapitalAllocator.runOps pool maxPositions ops) ≤ pool) ∧
    (∀ (a : CapitalAllocator.Allocations) (s : String),
      CapitalAllocator.hasSymbol a s →
      CapitalAllocator.allocate pool maxPositions a s = (0, a)) := by
  constructor
  · intro ops
    exact (CapitalAllocator.inv_runOps pool maxPositions hpool ops).2
  · intro a s hmem
    unfold CapitalAllocator.allocate
    rw [if_pos hmem]

/-- C7 witness: pool 500 with 2 slots; after allocating A, allocating B,
releasing A and allocating C, the recorded sum stays within the pool, and
re-allocating a held symbol returns 0 and changes nothing. -/
theorem C7_capital_allocator_witness :
    CapitalAllocator.sumAlloc
      (CapitalAllocator.runOps 500 2
        [CapitalAllocator.Op.alloc "A", CapitalAllocator.Op.alloc "B",
         CapitalAllocator.Op.rel "A", CapitalAllocator.Op.alloc "C"]) ≤ 500 ∧
    CapitalAllocator.allocate 500 2 [("A", 250)] "A" = (0, [("A", 250)]) :=
  ⟨(C7_capital_allocator 500 2 (by norm_num)).1 _,
    (C7_capital_allocator 500 2 (by norm_num)).2 [("A", 250)] "A" (by decide)⟩

/-! ## OrderQueue (src/order_queue.py) -/

namespace OrderQueue

/-- A pending limit order (src/order_queue.py lines 15-22). -/
structure PendingOrder where
  symbol : String
  price : ℚ
  timestamp : String
  beautyScore : ℚ
  candle : Candle
  deriving DecidableEq, Repr

/-- OrderQueue.request_order (src/order_queue.py lines 93-151).  The
pending_orders dict is modelled as a list in insertion order; the
winner/losers loop is a fold carrying (winner_symbol, winner_score,
losers), and deleting the losers keeps the surviving entries in order. -/
def requestOrder (pending : List PendingOrder) (symbol : String) (price : ℚ)
    (timestamp : String) (beautyScore : ℚ) (candle : Candle) :
    String × List PendingOrder :=
  if pending.any (fun o => o.symbol == symbol) then ("REJECTED_EXISTS", pending)
  else if pending.length > 0 then
    let res := pending.foldl
      (fun (acc : String × ℚ × List String) existing =>
        if existing.beautyScore > acc.2.1 then
          (existing.symbol, existing.beautyScore, acc.2.2 ++ [symbol])
        else (acc.1, acc.2.1, acc.2.2 ++ [existing.symbol]))
      (symbol, beautyScore, [])
    let losers := res.2.2
    let pending2 := pending.filter fun o => ¬ losers.contains o.symbol
    if losers.contains symbol then ("REJECTED_COLLISION", pending2)
    else ("APPROVED",
      pending2 ++ [{ symbol := symbol, price := price, timestamp := timestamp,
                     beautyScore := beautyScore, candle := candle }])
  else ("APPROVED",
    pending ++ [{ symbol := symbol, price := price, timestamp := timestamp,
                  beautyScore := beautyScore, candle := candle }])

end OrderQueue

/-- An indifferent payload candle for order-queue scenarios. -/
def oqCandle : Candle :=
  { open_ := 1, high := 1, low := 1, close := 1, turnover := 0, trades := 0 }

/-- The existing pending holder in the C1 scenario: asset A, score 50. -/
def oqHolderA : OrderQueue.PendingOrder :=
  { symbol := "A", price := 1, timestamp := "t", beautyScore := 50, candle := oqCandle }

/-- C1 counterexample: asset A holds a pending order with beauty score 50;
asset B requests with the same score 50 — not strictly greater.  The claim
says the request is rejected and A stays; the code approves B and replaces
A, because only a strictly greater existing score defeats the incomer. -/
theorem C1_counterexample :
    OrderQueue.requestOrder [oqHolderA] "B" 2 "u" 50 oqCandle =
      ("APPROVED",
        [{ symbol := "B", price := 2, timestamp := "u", beautyScore := 50,
           candle := oqCandle }]) := by
  decide

/-- C1 (amended): with another asset holding the pending order, an incoming
request with a strictly smaller beauty score is rejected as
REJECTED_COLLISION and the holder stays unchanged; an incoming score
greater than OR EQUAL to the holder's replaces the holder (the source
compares with a strict greater-than in the existing holder's favour, so
ties go to the newcomer). -/
theorem C1_order_queue (h : OrderQueue.PendingOrder) (s : String) (p : ℚ)
    (t : String) (score : ℚ) (c : Candle) (hne : s ≠ h.symbol) :
    (score < h.beautyScore →
      OrderQueue.requestOrder [h] s p t score c = ("REJECTED_COLLISION", [h])) ∧
    (h.beautyScore ≤ score →
      OrderQueue.requestOrder [h] s p t score c =
        ("APPROVED",
          [{ symbol := s, price := p, timestamp := t, beautyScore := score,
             candle := c }])) := by
  have hbeq : (h.symbol == s) = false := by
    simp [beq_eq_false_iff_ne]
    exact fun hc => hne hc.symm
  have hbeq2 : (s == s) = true := by simp
  constructor
  · intro hlt
    unfold OrderQueue.requestOrder
    rw [if_neg (by simp [hbeq]), if_pos (by simp)]
    simp only [List.foldl_cons, List.foldl_nil, if_pos (show h.beautyScore > score from hlt)]
    rw [if_pos (by simp)]
    simp [List.filter, hbeq, Ne.symm hne]
  · intro hle
    unfold OrderQueue.requestOrder
    rw [if_neg (by simp [hbeq]), if_pos (by simp)]
    simp only [List.foldl_cons, List.foldl_nil, if_neg (show ¬ h.beautyScore > score from not_lt.2 hle)]
    rw [if_neg (by simp [hbeq]; exact hne)]
    simp [List.filter]

/-- C1 witness: holder A with score 50; a request from B with score 30 is
rejected and A survives; a request from C with score 60 replaces A. -/
theorem C1_order_queue_witness :
    OrderQueue.requestOrder [oqHolderA] "B" 2 "u" 30 oqCandle =
      ("REJECTED_COLLISION", [oqHolderA]) ∧
    OrderQueue.requestOrder [oqHolderA] "C" 3 "v" 60 oqCandle =
      ("APPROVED",
        [{ symbol := "C", price := 3, timestamp := "v", beautyScore := 60,
           candle := oqCandle }]) :=
  ⟨(C1_order_queue oqHolderA "B" 2 "u" 30 oqCandle (by decide)).1 (by norm_num [oqHolderA]),
    (C1_order_queue oqHolderA "C" 3 "v" 60 oqCandle (by decide)).2 (by norm_num [oqHolderA])⟩

/-! ## EMA momentum detection (src/pattern_detector_5min.py) -/

namespace PatternDetector5Min

/-- The fields of a stored candle row used by check_ema_momentum_pattern;
ema9 is optional because the row's indicator column may be absent. -/
structure EmaCandle where
  close : ℚ
  turnover : ℚ
  ema9 : Option ℚ
  deriving DecidableEq, Repr

/-- The EMA_MOMENTUM configuration surface consumed by
check_ema_momentum_pattern. -/
structure EmaMomentumCfg where
  enabled : Bool
  thresholdPercent : ℚ
  lookbackWindow : ℕ
  minLookbackCandles : ℕ
  minCandleVolume5Min : ℚ
  recencyFilterEnabled : Bool
  recencyFilterCandles : ℤ
  deriving Repr

/-- The literal EMA_MOMENTUM table of src/config.py (5min volume floor). -/
def emaMomentumCfg : EmaMomentumCfg :=
  { enabled := true, thresholdPercent := 1, lookbackWindow := 10,
    minLookbackCandles := 6, minCandleVolume5Min := 100,
    recencyFilterEnabled := true, recencyFilterCandles := 60 }

/-- The detection result record built by check_ema_momentum_pattern. -/
structure PatternInfo where
  emaGainPct : ℚ
  lookbackCandles : ℕ
  currentEma9 : ℚ
  oldEma9 : ℚ
  entryPrice : ℚ
  deriving DecidableEq, Repr

/-- The lookback loop of PatternDetector5Min.check_ema_momentum_pattern
(src/pattern_detector_5min.py lines 488-500): the first window size in
[min_lookback, lookback_window] whose EMA9 gain reaches the threshold wins;
windows beyond the history, missing ema9 values and non-positive old
values are skipped.  Returns (lookback, old_ema9, gain). -/
def findEmaTrigger (cfg : EmaMomentumCfg) (historical : List EmaCandle)
    (currentEma9 : ℚ) : Option (ℕ × ℚ × ℚ) :=
  (List.range' cfg.minLookbackCandles
      (cfg.lookbackWindow + 1 - cfg.minLookbackCandles)).findSome? fun lookback =>
    if lookback ≥ historical.length then none
    else
      match (historical.get? (historical.length - (lookback + 1))).bind (fun c => c.ema9) with
      | none => none
      | some old =>
        if old ≤ 0 then none
        else
          let gain := (currentEma9 - old) / old
          if gain ≥ cfg.thresholdPercent / 100 then some (lookback, old, gain) else none

/-- PatternDetector5Min.check_ema_momentum_pattern (src/pattern_detector_5min.py
lines 459-545).  lastDetection is self.ema_last_detection_candle,
totalCandles the db.get_candle_count() value during this call; the result
pairs the returned pattern info with the updated detection marker. -/
def checkEmaMomentumPattern (cfg : EmaMomentumCfg) (lastDetection : Option ℤ)
    (totalCandles : ℤ) (historical : List EmaCandle) (cur : EmaCandle) :
    Option PatternInfo × Option ℤ :=
  if ¬ cfg.enabled then (none, lastDetection)
  else if cur.turnover < cfg.minCandleVolume5Min then (none, lastDetection)
  else
    match cur.ema9 with
    | none => (none, lastDetection)
    | some currentEma9 =>
      if historical.length < cfg.minLookbackCandles + 1 then (none, lastDetection)
      else
        match findEmaTrigger cfg historical currentEma9 with
        | none => (none, lastDetection)
        | some (lookback, old, gain) =>
          let info : PatternInfo :=
            { emaGainPct := gain * 100, lookbackCandles := lookback,
              currentEma9 := currentEma9, oldEma9 := old, entryPrice := cur.close }
          if cfg.recencyFilterEnabled then
            match lastDetection with
            | some last =>
              if totalCandles - last < cfg.recencyFilterCandles then
                (none, some totalCandles)
              else (some info, some totalCandles)
            | none => (some info, some totalCandles)
          else (some info, some totalCandles)

end PatternDetector5Min

/-- C8: an EMA-momentum detection whose gain reaches the threshold but
falls inside the recency window (recency filter enabled, as in config.py)
returns no signal AND advances the recency marker to the current stored
candle count — a suppressed trigger still resets the suppression window. -/
theorem C8_ema_recency (lastDetection totalCandles : ℤ)
    (historical : List PatternDetector5Min.EmaCandle)
    (cur : PatternDetector5Min.EmaCandle) (currentEma9 : ℚ) (trig : ℕ × ℚ × ℚ)
    (h1 : cur.ema9 = some currentEma9)
    (h2 : PatternDetector5Min.emaMomentumCfg.minCandleVolume5Min ≤ cur.turnover)
    (h3 : PatternDetector5Min.emaMomentumCfg.minLookbackCandles + 1 ≤ historical.length)
    (h4 : PatternDetector5Min.findEmaTrigger PatternDetector5Min.emaMomentumCfg
        historical currentEma9 = some trig)
    (h5 : totalCandles - lastDetection <
        PatternDetector5Min.emaMomentumCfg.recencyFilterCandles) :
    PatternDetector5Min.checkEmaMomentumPattern PatternDetector5Min.emaMomentumCfg
        (some lastDetection) totalCandles historical cur =
      (none, some totalCandles) := by
  unfold PatternDetector5Min.checkEmaMomentumPattern
  obtain ⟨lb, old, gain⟩ := trig
  simp only [PatternDetector5Min.emaMomentumCfg] at h2 h3 h4 h5 ⊢
  simp [h1, h4, not_lt.2 h2, not_lt.2 h3, h5]

/-- A 7-candle history with flat EMA9 = 100 for the C8 witness. -/
def emaHist7 : List PatternDetector5Min.EmaCandle :=
  List.replicate 7 { close := 100, turnover := 200, ema9 := some 100 }

/-- The current candle of the C8 witness: EMA9 up 2% vs 6 candles ago. -/
def emaCur : PatternDetector5Min.EmaCandle :=
  { close := 102, turnover := 200, ema9 := some 102 }

/-- C8 witness: last detection at stored-candle count 5, current count 10
(5 < 60 elapsed): the 2% EMA9 trigger is suppressed and the marker moves
to 10. -/
theorem C8_ema_recency_witness :
    PatternDetector5Min.checkEmaMomentumPattern PatternDetector5Min.emaMomentumCfg
        (some 5) 10 emaHist7 emaCur = (none, some 10) :=
  C8_ema_recency 5 10 emaHist7 emaCur 102 (6, 100, 1/50) rfl
    (by norm_num [PatternDetector5Min.emaMomentumCfg, emaCur])
    (by norm_num [PatternDetector5Min.emaMomentumCfg, emaHist7])
    (by norm_num [PatternDetector5Min.findEmaTrigger, PatternDetector5Min.emaMomentumCfg,
      emaHist7, List.range', List.findSome?, List.replicate])
    (by norm_num [PatternDetector5Min.emaMomentumCfg])

/-! ## The 2BULL detection handoff (src/pattern_detector_5min.py,
src/buy_monitor_5min.py) -/

/-- The parameters of a Python method after self: the name and whether the
parameter has a default value. -/
structure PyParam where
  name : String
  hasDefault : Bool
  deriving DecidableEq, Repr

/-- Whether a Python call with nPos positional arguments and the given
keyword-argument names binds against a parameter list: every keyword must
name a parameter, no keyword may re-bind a positionally filled parameter,
there must be room for the positional arguments, and every parameter
without a default must be bound. -/
def pyCallBinds (params : List PyParam) (nPos : ℕ) (kwargs : List String) : Bool :=
  let names := params.map PyParam.name
  let posBound := names.take nPos
  nPos ≤ params.length &&
  kwargs.all (fun k => names.contains k) &&
  kwargs.all (fun k => ¬ posBound.contains k) &&
  (params.drop nPos).all (fun p => p.hasDefault || kwargs.contains p.name)

/-- The parameter list of BuyMonitor5Min.start_monitoring
(src/buy_monitor_5min.py line 86): c1, c2, beauty_score, avg_volume are
required, pattern_type has a default. -/
def startMonitoring5MinParams : List PyParam :=
  [{ name := "c1", hasDefault := false },
   { name := "c2", hasDefault := false },
   { name := "beauty_score", hasDefault := false },
   { name := "avg_volume", hasDefault := false },
   { name := "pattern_type", hasDefault := true }]

/-- The keyword arguments passed by PatternDetector5Min._check_2bull_pattern
to buy_monitor.start_monitoring (src/pattern_detector_5min.py lines
295-303); the call passes no positional arguments. -/
def check2BullStartMonitoringKwargs : List String :=
  ["avg_volume", "beauty_score", "pattern_candles", "pattern_gain",
   "pattern_volume", "pattern_trades", "pattern_type"]

/-- C2: the detector's start-monitoring call cannot bind against
BuyMonitor5Min.start_monitoring — pattern_candles, pattern_gain,
pattern_volume and pattern_trades name no parameter and c1, c2 stay
unbound — so on every candle whose 2BULL validation succeeds with a free
slot the call raises TypeError instead of entering MONITORING. -/
theorem C2_handoff_call_fails :
    pyCallBinds startMonitoring5MinParams 0 check2BullStartMonitoringKwargs = false ∧
    startMonitoring5MinParams.all
        (fun p => p.name ≠ "pattern_candles" ∧ p.name ≠ "pattern_gain" ∧
          p.name ≠ "pattern_volume" ∧ p.name ≠ "pattern_trades") = true := by
  decide

/-! ## Sell monitor (src/sell_monitor_5min.py) -/

/-- Division that records Python's ZeroDivisionError instead of totalising. -/
def divE (a b : ℚ) : Except String ℚ :=
  if b = 0 then Except.error "ZeroDivisionError" else Except.ok (a / b)

lemma divE_of_ne (a b : ℚ) (h : b ≠ 0) : divE a b = Except.ok (a / b) :=
  if_neg h

/-- Python's guarded ratio idiom x / y if y > 0 else d, with the division
tracked. -/
def ratioOr (a b d : ℚ) : Except String ℚ :=
  if b > 0 then divE a b else pure d

/-- Python's guarded percentage idiom (x / y) * 100 if y > 0 else d, with
the division tracked. -/
def pctOr (a b d : ℚ) : Except String ℚ :=
  if b > 0 then (divE a b).map (· * 100) else pure d

@[simp] lemma exceptBind_ok {ε α β : Type} (a : α) (f : α → Except ε β) :
    (Except.ok a : Except ε α) >>= f = f a := rfl

@[simp] lemma exceptBind_err {ε α β : Type} (e : ε) (f : α → Except ε β) :
    (Except.error e : Except ε α) >>= f = Except.error e := rfl

@[simp] lemma exceptPure_eq {ε α : Type} (a : α) : (pure a : Except ε α) = Except.ok a := rfl

@[simp] lemma exceptMap_ok {ε α β : Type} (a : α) (f : α → β) :
    (Except.ok a : Except ε α).map f = Except.ok (f a) := rfl

namespace SellMonitor5Min

/-- The REVERSAL_DETECTION configuration surface. -/
structure RevCfg where
  enabled : Bool
  shootingStarEnabled : Bool
  shootingStarMinWickRatio : ℚ
  shootingStarDangerRatio : ℚ
  shootingStarMaxLowerWickRatio : ℚ
  highWaveEnabled : Bool
  highWaveBodyPercent : ℚ
  highWaveSeverity1Ratio : ℚ
  highWaveSeverity2Ratio : ℚ
  highWaveSeverity3Ratio : ℚ
  gravestoneEnabled : Bool
  gravestoneBodyPercent : ℚ
  gravestoneMinWickRatio : ℚ
  gravestoneMaxLowerWickRatio : ℚ
  bearishMarubozuEnabled : Bool
  bearishMarubozuMinLoss : ℚ
  bearishMarubozuUpperWickTolerance : ℚ
  bearishMarubozuNoLowerWick : Bool
  bearishEngulfingEnabled : Bool
  bearishEngulfingMinBodyRatio : ℚ
  darkCloudEnabled : Bool
  darkCloudMinPenetration : ℚ
  hammerEnabled : Bool
  hammerMinLowerWickRatio : ℚ
  hammerMaxUpperWickRatio : ℚ
  hammerMinProfitThreshold : ℚ
  autoExitOnDanger : Bool
  reduceTpOnWarning : Bool
  warningCooldownCandles : ℤ
  deriving Repr

/-- The literal REVERSAL_DETECTION table of src/config.py. -/
def reversalDetectionCfg : RevCfg :=
  { enabled := true,
    shootingStarEnabled := true, shootingStarMinWickRatio := 3,
    shootingStarDangerRatio := 4, shootingStarMaxLowerWickRatio := 1/2,
    highWaveEnabled := true, highWaveBodyPercent := 1/10,
    highWaveSeverity1Ratio := 2, highWaveSeverity2Ratio := 4,
    highWaveSeverity3Ratio := 6,
    gravestoneEnabled := true, gravestoneBodyPercent := 1/10,
    gravestoneMinWickRatio := 5, gravestoneMaxLowerWickRatio := 3/10,
    bearishMarubozuEnabled := true, bearishMarubozuMinLoss := 3/10,
    bearishMarubozuUpperWickTolerance := 1/50, bearishMarubozuNoLowerWick := true,
    bearishEngulfingEnabled := true, bearishEngulfingMinBodyRatio := 1,
    darkCloudEnabled := true, darkCloudMinPenetration := 1/2,
    hammerEnabled := true, hammerMinLowerWickRatio := 2,
    hammerMaxUpperWickRatio := 1/2, hammerMinProfitThreshold := 1/2,
    autoExitOnDanger := true, reduceTpOnWarning := false,
    warningCooldownCandles := 3 }

/-- SellMonitor5Min._check_bearish_marubozu (src/sell_monitor_5min.py lines
581-603); the loss percentage divides by the candle's open price. -/
def checkBearishMarubozuE (rv : RevCfg) (c : Candle) (bodySize upperWick lowerWick : ℚ) :
    Except String Bool := do
  let r ← divE (c.close - c.open_) c.open_
  let lossPercent := r * 100
  if lossPercent > -rv.bearishMarubozuMinLoss then pure false
  else do
    let upperWickRatio ← ratioOr upperWick bodySize 0
    if upperWickRatio > rv.bearishMarubozuUpperWickTolerance then pure false
    else if rv.bearishMarubozuNoLowerWick ∧ lowerWick > 1/10000 then pure false
    else pure true

/-- SellMonitor5Min._check_gravestone_doji (src/sell_monitor_5min.py lines
605-625). -/
def checkGravestoneDojiE (rv : RevCfg) (bodySize upperWick lowerWick bodyPercent : ℚ) :
    Except String Bool :=
  if bodyPercent > rv.gravestoneBodyPercent then pure false
  else do
    let wickRatio ← ratioOr upperWick bodySize 999
    if wickRatio < rv.gravestoneMinWickRatio then pure false
    else do
      let lowerRatio ← ratioOr lowerWick bodySize 0
      if lowerRatio > rv.gravestoneMaxLowerWickRatio then pure false
      else pure true

/-- SellMonitor5Min._check_shooting_star (src/sell_monitor_5min.py lines
627-644); returns (detected, wick ratio). -/
def checkShootingStarE (rv : RevCfg) (bodySize upperWick lowerWick : ℚ) :
    Except String (Bool × ℚ) := do
  let wickRatio ← ratioOr upperWick bodySize 0
  let lowerRatio ← ratioOr lowerWick bodySize 0
  if wickRatio < rv.shootingStarMinWickRatio then pure (false, wickRatio)
  else if lowerRatio > rv.shootingStarMaxLowerWickRatio then pure (false, wickRatio)
  else pure (true, wickRatio)

/-- SellMonitor5Min._check_bearish_engulfing (src/sell_monitor_5min.py lines
646-666). -/
def checkBearishEngulfingE (rv : RevCfg) (c prev : Candle) (bodySize : ℚ) :
    Except String Bool :=
  let prevBodySize := |prev.close - prev.open_|
  if c.open_ ≤ prev.close then pure false
  else if c.close ≥ prev.open_ then pure false
  else do
    let bodyRatio ← ratioOr bodySize prevBodySize 0
    if bodyRatio < rv.bearishEngulfingMinBodyRatio then pure false
    else pure true

/-- SellMonitor5Min._check_high_wave_doji (src/sell_monitor_5min.py lines
668-709); returns (detected, graduated severity). -/
def checkHighWaveDojiE (rv : RevCfg) (bodySize upperWick lowerWick bodyPercent : ℚ) :
    Except String (Bool × ℕ) :=
  if bodyPercent > rv.highWaveBodyPercent then pure (false, 0)
  else do
    let upperRatio ← ratioOr upperWick bodySize 999
    let lowerRatio ← ratioOr lowerWick bodySize 999
    let minWickRatio := min upperRatio lowerRatio
    if minWickRatio < rv.highWaveSeverity1Ratio then pure (false, 0)
    else if minWickRatio ≥ rv.highWaveSeverity3Ratio then pure (true, 3)
    else if minWickRatio ≥ rv.highWaveSeverity2Ratio then pure (true, 2)
    else pure (true, 1)

/-- SellMonitor5Min._check_dark_cloud (src/sell_monitor_5min.py lines
711-732). -/
def checkDarkCloudE (rv : RevCfg) (c prev : Candle) : Except String Bool :=
  if c.open_ ≤ prev.high then pure false
  else
    let prevMidpoint := (prev.open_ + prev.close) / 2
    if c.close ≥ prevMidpoint then pure false
    else
      let prevBody := |prev.close - prev.open_|
      do
        let penetration ← ratioOr (prev.close - c.close) prevBody 0
        if penetration < rv.darkCloudMinPenetration then pure false
        else pure true

/-- SellMonitor5Min._check_hammer (src/sell_monitor_5min.py lines 734-750). -/
def checkHammerE (rv : RevCfg) (bodySize upperWick lowerWick : ℚ) : Except String Bool := do
  let lowerRatio ← ratioOr lowerWick bodySize 0
  let upperRatio ← ratioOr upperWick bodySize 0
  if lowerRatio < rv.hammerMinLowerWickRatio then pure false
  else if upperRatio > rv.hammerMaxUpperWickRatio then pure false
  else pure true

/-- The result record of _detect_reversal_patterns; pattern is "" when no
warning fires. -/
structure RevResult where
  hasWarning : Bool
  pattern : String
  severity : ℕ
  deriving DecidableEq, Repr

/-- The no-warning result. -/
def noWarning : RevResult :=
  { hasWarning := false, pattern := "", severity := 0 }

/-- SellMonitor5Min._detect_reversal_patterns (src/sell_monitor_5min.py
lines 461-579): a zero body size is floored to 0.0001 before any ratio is
taken, the body/price percentage is guarded by open > 0, and the seven
pattern checks run in strict priority order, the first match winning. -/
def detectReversalPatternsE (rv : RevCfg) (entryPrice : ℚ) (prevCandle : Option Candle)
    (c : Candle) : Except String RevResult := do
  let bodySize0 := |c.close - c.open_|
  let isBearish := c.close < c.open_
  let isBullish := c.close ≥ c.open_
  let bodySize := if bodySize0 = 0 then 1/10000 else bodySize0
  let upperWick := c.high - max c.close c.open_
  let lowerWick := min c.close c.open_ - c.low
  let bodyPercent ← pctOr bodySize c.open_ 0
  if rv.bearishMarubozuEnabled ∧ isBearish then
    let det ← checkBearishMarubozuE rv c bodySize upperWick lowerWick
    if det then return { hasWarning := true, pattern := "BEAR_MARU", severity := 3 }
  if rv.gravestoneEnabled then
    let det ← checkGravestoneDojiE rv bodySize upperWick lowerWick bodyPercent
    if det then return { hasWarning := true, pattern := "GRAVESTONE", severity := 3 }
  if rv.shootingStarEnabled ∧ isBullish then
    let det ← checkShootingStarE rv bodySize upperWick lowerWick
    if det.1 then
      let severity : ℕ := if det.2 ≥ rv.shootingStarDangerRatio then 3 else 1
      return { hasWarning := true, pattern := "SHOOT_STAR", severity := severity }
  if rv.bearishEngulfingEnabled ∧ prevCandle.isSome ∧ isBearish then
    let det ← checkBearishEngulfingE rv c (prevCandle.getD c) bodySize
    if det then return { hasWarning := true, pattern := "BEAR_ENG", severity := 2 }
  if rv.highWaveEnabled then
    let det ← checkHighWaveDojiE rv bodySize upperWick lowerWick bodyPercent
    if det.1 then return { hasWarning := true, pattern := "HIGH_WAVE", severity := det.2 }
  if rv.darkCloudEnabled ∧ prevCandle.isSome ∧ isBearish then
    let det ← checkDarkCloudE rv c (prevCandle.getD c)
    if det then return { hasWarning := true, pattern := "DARK_CLOUD", severity := 2 }
  if rv.hammerEnabled ∧ isBullish then
    let r ← divE (c.close - entryPrice) entryPrice
    let pnlPercent := r * 100
    if pnlPercent ≥ rv.hammerMinProfitThreshold then
      let det ← checkHammerE rv bodySize upperWick lowerWick
      if det then return { hasWarning := true, pattern := "HAMMER", severity := 1 }
  return noWarning

/-- The detection result actually used by process_candle; on inputs with
positive prices the Except translation never errors (C9), so the fallback
is unreachable. -/
def detectReversalPatterns (rv : RevCfg) (entryPrice : ℚ) (prevCandle : Option Candle)
    (c : Candle) : RevResult :=
  match detectReversalPatternsE rv entryPrice prevCandle c with
  | Except.ok r => r
  | Except.error _ => noWarning

/-- The SELL_MONITOR_5MIN configuration surface plus COMMISSION_PERCENT. -/
structure SellCfg where
  tpPercentOrig : ℚ
  slPercentOrig : ℚ
  recoveryModeEnabled : Bool
  recoveryTp : ℚ
  spikeTrigger : ℚ
  stagnationCandles : ℕ
  quickExitEnabled : Bool
  quickExitThreshold : ℚ
  maxCandles : ℕ
  adaptiveStopLoss : Bool
  autoExitLargeBearish : Bool
  exitBearishThreshold : ℚ
  exitMinProfit : ℚ
  commissionPercent : ℚ
  deriving Repr

/-- The literal SELL_MONITOR_5MIN table of src/config.py with
COMMISSION_PERCENT = 0.075. -/
def sellMonitor5MinCfg : SellCfg :=
  { tpPercentOrig := 6, slPercentOrig := 3,
    recoveryModeEnabled := true, recoveryTp := 1/4, spikeTrigger := 3/2,
    stagnationCandles := 5, quickExitEnabled := true, quickExitThreshold := 1/4,
    maxCandles := 12, adaptiveStopLoss := false,
    autoExitLargeBearish := false, exitBearishThreshold := 2, exitMinProfit := 1/2,
    commissionPercent := 3/40 }

/-- SellMonitor5Min._calculate_commission (src/sell_monitor_5min.py lines
91-134). -/
structure CommissionData where
  entryCommissionPercent : ℚ
  exitCommissionPercent : ℚ
  totalCommissionPercent : ℚ
  grossPnlPercent : ℚ
  netPnlPercent : ℚ
  deriving DecidableEq, Repr

/-- SellMonitor5Min._calculate_commission (src/sell_monitor_5min.py lines
91-134): round-trip costs in percent of the entry value. -/
def calculateCommission (commissionPercent entryPrice exitPrice : ℚ) : CommissionData :=
  let grossPnlPercent := (exitPrice - entryPrice) / entryPrice * 100
  let entryCommissionPercent := commissionPercent
  let exitCommissionPercent := exitPrice / entryPrice * commissionPercent
  let totalCommissionPercent := entryCommissionPercent + exitCommissionPercent
  let netPnlPercent := grossPnlPercent - totalCommissionPercent
  { entryCommissionPercent := entryCommissionPercent,
    exitCommissionPercent := exitCommissionPercent,
    totalCommissionPercent := totalCommissionPercent,
    grossPnlPercent := grossPnlPercent,
    netPnlPercent := netPnlPercent }

/-- The sell monitor's per-position mutable state. -/
structure SellState where
  isMonitoring : Bool
  entryPrice : ℚ
  entryCandleCount : ℕ
  tpPrice : ℚ
  slPrice : ℚ
  slPercent : ℚ
  recoveryMode : Bool
  prevCandle : Option Candle
  warningHistory : List (String × ℕ)
  deriving DecidableEq, Repr

/-- SellMonitor5Min.start_monitoring (src/sell_monitor_5min.py lines
145-211) on the fixed stop-loss path (adaptive_stop_loss is False in
src/config.py). -/
def startMonitoring (cfg : SellCfg) (entryPrice : ℚ) : SellState :=
  { isMonitoring := true, entryPrice := entryPrice, entryCandleCount := 0,
    tpPrice := entryPrice * (1 + cfg.tpPercentOrig / 100),
    slPrice := entryPrice * (1 - cfg.slPercentOrig / 100),
    slPercent := cfg.slPercentOrig,
    recoveryMode := false, prevCandle := none, warningHistory := [] }

/-- The exit record assembled by _execute_sell: reason code, exit price,
PnL figures and the net-PnL-based win flag (the ✅/❌ classification). -/
structure TradeExit where
  reason : String
  exitPrice : ℚ
  grossPnlPercent : ℚ
  commissionPercent : ℚ
  netPnlPercent : ℚ
  isWin : Bool
  deriving DecidableEq, Repr

/-- SellMonitor5Min._execute_sell (src/sell_monitor_5min.py lines 365-450):
computes the commission-adjusted PnL, classifies win/loss by NET PnL, and
stops monitoring. -/
def executeSell (cfg : SellCfg) (st : SellState) (price : ℚ) (reason : String) :
    TradeExit × SellState :=
  let cd := calculateCommission cfg.commissionPercent st.entryPrice price
  ({ reason := reason, exitPrice := price,
     grossPnlPercent := cd.grossPnlPercent,
     commissionPercent := cd.totalCommissionPercent,
     netPnlPercent := cd.netPnlPercent,
     isWin := cd.netPnlPercent ≥ 0 },
   { st with isMonitoring := false })

/-- Lookup in the warning_history dict. -/
def lookupWarning (hist : List (String × ℕ)) (pattern : String) : Option ℕ :=
  (hist.find? fun q => q.1 == pattern).map Prod.snd

/-- warning_history[pattern] = n. -/
def setWarning (hist : List (String × ℕ)) (pattern : String) (n : ℕ) :
    List (String × ℕ) :=
  if hist.any (fun q => q.1 == pattern) then
    hist.map fun q => if q.1 == pattern then (q.1, n) else q
  else hist ++ [(pattern, n)]

/-- SellMonitor5Min._log_reversal_warning (src/sell_monitor_5min.py lines
752-786), restricted to its state effect: inside the per-pattern cooldown
it returns without touching the history; otherwise it records the current
candle count for the pattern. -/
def logReversalWarning (rv : RevCfg) (hist : List (String × ℕ)) (cnt : ℕ)
    (pattern : String) : List (String × ℕ) :=
  match lookupWarning hist pattern with
  | some lastCandle =>
    if (cnt : ℤ) - (lastCandle : ℤ) < rv.warningCooldownCandles then hist
    else setWarning hist pattern cnt
  | none => setWarning hist pattern cnt

/-- Steps 5-7 of SellMonitor5Min.process_candle (src/sell_monitor_5min.py
lines 326-363): standard take-profit, the stagnation trigger, and the
fall-through that stores the candle as prev_candle. -/
def processTail (cfg : SellCfg) (st : SellState) (c : Candle) (cnt : ℕ)
    (pnlPercent : ℚ) : Option TradeExit × SellState :=
  if ¬ st.recoveryMode ∧ c.high ≥ st.tpPrice then
    let r := executeSell cfg st st.tpPrice "TAKE_PROFIT"
    (some r.1, r.2)
  else if cnt = cfg.stagnationCandles ∧ cfg.quickExitEnabled ∧
      pnlPercent ≥ cfg.quickExitThreshold then
    let r := executeSell cfg st c.close "QUICK_EXIT"
    (some r.1, r.2)
  else if cnt = cfg.stagnationCandles ∧ cfg.recoveryModeEnabled then
    (none, { st with recoveryMode := true,
                     tpPrice := st.entryPrice * (1 + cfg.recoveryTp / 100),
                     prevCandle := some c })
  else (none, { st with prevCandle := some c })

/-- SellMonitor5Min.process_candle (src/sell_monitor_5min.py lines 213-363).
bearishLarge stands for the CandleSizeAnalyzer verdict
check_bearish_size(...)['is_large'] of the danger-bearish pre-check, an
external database-dependent collaborator (the branch is disabled in
config.py anyway).  Returns the exit, if any, with the updated state. -/
def processCandle (cfg : SellCfg) (rv : RevCfg) (bearishLarge : Bool)
    (st0 : SellState) (c : Candle) : Option TradeExit × SellState :=
  if ¬ st0.isMonitoring then (none, st0)
  else
    let cnt := st0.entryCandleCount + 1
    let st := { st0 with entryCandleCount := cnt }
    let pnlPercent := (c.close - st.entryPrice) / st.entryPrice * 100
    if cfg.autoExitLargeBearish ∧ c.close < c.open_ ∧ pnlPercent ≥ cfg.exitMinProfit ∧
        bearishLarge then
      let r := executeSell cfg st c.close "DANGER_BEARISH"
      (some r.1, r.2)
    else if c.low ≤ st.slPrice then
      let r := executeSell cfg st st.slPrice "STOP_LOSS"
      (some r.1, r.2)
    else if cnt ≥ cfg.maxCandles then
      let r := executeSell cfg st c.close "TIME_LIMIT"
      (some r.1, r.2)
    else
      let rc := if rv.enabled then detectReversalPatterns rv st.entryPrice st.prevCandle c
                else noWarning
      let st :=
        if rv.enabled ∧ rc.hasWarning then
          { st with warningHistory := logReversalWarning rv st.warningHistory cnt rc.pattern }
        else st
      if rv.enabled ∧ rc.hasWarning ∧ rc.severity = 3 ∧ rv.autoExitOnDanger then
        let r := executeSell cfg st c.close "REVERSAL_DETECTED"
        (some r.1, r.2)
      else
        let st :=
          if rv.enabled ∧ rc.hasWarning ∧ 2 ≤ rc.severity ∧ rv.reduceTpOnWarning ∧
              ¬ st.recoveryMode then
            { st with recoveryMode := true,
                      tpPrice := st.entryPrice * (1 + cfg.recoveryTp / 100) }
          else st
        if cfg.recoveryModeEnabled ∧ st.recoveryMode then
          if pnlPercent ≥ cfg.spikeTrigger then
            let st := { st with recoveryMode := false,
                                tpPrice := st.entryPrice * (1 + cfg.tpPercentOrig / 100) }
            processTail cfg st c cnt pnlPercent
          else if c.high ≥ st.tpPrice then
            let r := executeSell cfg st st.tpPrice "RECOVERY_TP"
            (some r.1, r.2)
          else processTail cfg st c cnt pnlPercent
        else processTail cfg st c cnt pnlPercent

end SellMonitor5Min

open SellMonitor5Min in
/-- C5: every exit built by _execute_sell records
gross_pnl = (exit-entry)/entry×100, commission = c + c·(exit/entry) with c
the per-side commission percent, net_pnl = gross - commission, and
classifies win/loss by net (not gross) PnL; and with the config.py
settings a standard-mode candle on which no higher-priority condition
fires and whose high reaches the take-profit level exits with reason
TAKE_PROFIT at exactly entry×(1 + tp_percent_orig/100). -/
theorem C5_commission_and_take_profit :
    (∀ (cfg : SellCfg) (st : SellState) (price : ℚ) (reason : String),
      (executeSell cfg st price reason).1.grossPnlPercent
          = (price - st.entryPrice) / st.entryPrice * 100 ∧
      (executeSell cfg st price reason).1.commissionPercent
          = cfg.commissionPercent + cfg.commissionPercent * (price / st.entryPrice) ∧
      (executeSell cfg st price reason).1.netPnlPercent
          = (executeSell cfg st price reason).1.grossPnlPercent
            - (executeSell cfg st price reason).1.commissionPercent ∧
      (executeSell cfg st price reason).1.isWin
          = decide (0 ≤ (executeSell cfg st price reason).1.netPnlPercent)) ∧
    (∀ (bearishLarge : Bool) (st : SellState) (c : Candle),
      st.isMonitoring = true →
      st.recoveryMode = false →
      st.tpPrice = st.entryPrice * (1 + sellMonitor5MinCfg.tpPercentOrig / 100) →
      st.slPrice < c.low →
      st.entryCandleCount + 1 < sellMonitor5MinCfg.maxCandles →
      ¬ ((detectReversalPatterns reversalDetectionCfg st.entryPrice st.prevCandle c).hasWarning
            = true ∧
        (detectReversalPatterns reversalDetectionCfg st.entryPrice st.prevCandle c).severity = 3) →
      st.tpPrice ≤ c.high →
      ∃ ex st2,
        processCandle sellMonitor5MinCfg reversalDetectionCfg bearishLarge st c
          = (some ex, st2) ∧
        ex.reason = "TAKE_PROFIT" ∧
        ex.exitPrice = st.entryPrice * (1 + sellMonitor5MinCfg.tpPercentOrig / 100) ∧
        ex.grossPnlPercent = (ex.exitPrice - st.entryPrice) / st.entryPrice * 100 ∧
        ex.commissionPercent
          = sellMonitor5MinCfg.commissionPercent
            + sellMonitor5MinCfg.commissionPercent * (ex.exitPrice / st.entryPrice) ∧
        ex.netPnlPercent = ex.grossPnlPercent - ex.commissionPercent ∧
        st2.isMonitoring = false) := by
  constructor
  · intro cfg st price reason
    refine ⟨rfl, ?_, rfl, rfl⟩
    unfold executeSell calculateCommission
    dsimp only
    ring
  · intro bearishLarge st c h1 h2 h3 h4 h5 h6 h7
    have hsl : ¬ c.low ≤ st.slPrice := not_le.2 h4
    have hmax : ¬ st.entryCandleCount + 1 ≥ sellMonitor5MinCfg.maxCandles := not_le.2 h5
    have hauto : sellMonitor5MinCfg.autoExitLargeBearish = false := rfl
    have henab : reversalDetectionCfg.enabled = true := rfl
    have hao : reversalDetectionCfg.autoExitOnDanger = true := rfl
    have hred : reversalDetectionCfg.reduceTpOnWarning = false := rfl
    have hrme : sellMonitor5MinCfg.recoveryModeEnabled = true := rfl
    unfold processCandle
    rw [if_neg (by simp [h1])]
    dsimp only
    rw [if_neg (by simp [hauto]), if_neg hsl, if_neg hmax]
    simp only [henab, hao, hred, hrme, eq_self_iff_true, if_true, true_and, and_true,
      Bool.false_eq_true, false_and, and_false, if_false]
    rw [if_neg h6]
    unfold processTail
    simp only [apply_ite SellState.recoveryMode, apply_ite SellState.tpPrice,
      apply_ite SellState.entryPrice, ite_self, executeSell, calculateCommission]
    rw [if_neg (by simp [h2])]
    rw [if_pos ⟨by simp [h2], h7⟩]
    refine ⟨_, _, rfl, rfl, ?_, ?_, ?_, rfl, rfl⟩
    · exact h3
    · rfl
    · dsimp only
      ring

/-- The monitor state right after a fill at entry price 100. -/
def tpState : SellMonitor5Min.SellState :=
  SellMonitor5Min.startMonitoring SellMonitor5Min.sellMonitor5MinCfg 100

/-- A candle whose high 107 crosses the 106 take-profit, clears the 97
stop-loss, and matches no reversal pattern. -/
def tpCandle : Candle :=
  { open_ := 104, high := 107, low := 103.9, close := 106, turnover := 1000, trades := 10 }

/-- C5 witness: entry 100, tp_percent_orig 6% (config.py), high 107 → exit
TAKE_PROFIT at exactly 106. -/
theorem C5_commission_and_take_profit_witness :
    (SellMonitor5Min.processCandle SellMonitor5Min.sellMonitor5MinCfg
        SellMonitor5Min.reversalDetectionCfg false tpState tpCandle).1.map
      SellMonitor5Min.TradeExit.reason = some "TAKE_PROFIT" ∧
    (SellMonitor5Min.processCandle SellMonitor5Min.sellMonitor5MinCfg
        SellMonitor5Min.reversalDetectionCfg false tpState tpCandle).1.map
      SellMonitor5Min.TradeExit.exitPrice = some 106 := by
  obtain ⟨ex, st2, heq, hr, hp, -⟩ :=
    C5_commission_and_take_profit.2 false tpState tpCandle rfl rfl rfl
      (by norm_num [tpState, SellMonitor5Min.startMonitoring,
        SellMonitor5Min.sellMonitor5MinCfg, tpCandle])
      (by norm_num [tpState, SellMonitor5Min.startMonitoring,
        SellMonitor5Min.sellMonitor5MinCfg])
      (by norm_num [tpState, SellMonitor5Min.startMonitoring,
        SellMonitor5Min.detectReversalPatterns, SellMonitor5Min.detectReversalPatternsE,
        SellMonitor5Min.checkBearishMarubozuE, SellMonitor5Min.checkGravestoneDojiE,
        SellMonitor5Min.checkShootingStarE, SellMonitor5Min.checkBearishEngulfingE,
        SellMonitor5Min.checkHighWaveDojiE, SellMonitor5Min.checkDarkCloudE,
        SellMonitor5Min.checkHammerE, divE, ratioOr, pctOr, SellMonitor5Min.noWarning,
        SellMonitor5Min.reversalDetectionCfg, tpCandle, abs_of_nonneg])
      (by norm_num [tpState, SellMonitor5Min.startMonitoring,
        SellMonitor5Min.sellMonitor5MinCfg, tpCandle])
  rw [heq]
  refine ⟨by simp [hr], by simp [hp]; norm_num [tpState, SellMonitor5Min.startMonitoring,
    SellMonitor5Min.sellMonitor5MinCfg]⟩

open SellMonitor5Min in
/-- C10: when a severity-3 reversal pattern is detected on a monitored
candle (auto_exit_on_danger enabled, as in config.py) and no
higher-priority exit fires first, the position exits with reason
REVERSAL_DETECTED for EVERY warning history — including one where the same
pattern was warned within the last warning_cooldown_candles candles; the
cooldown suppresses only the warning-history update, never the exit. -/
theorem C10_reversal_auto_exit (bearishLarge : Bool) (st : SellState) (c : Candle)
    (h1 : st.isMonitoring = true)
    (h4 : st.slPrice < c.low)
    (h5 : st.entryCandleCount + 1 < sellMonitor5MinCfg.maxCandles)
    (hw : (detectReversalPatterns reversalDetectionCfg st.entryPrice st.prevCandle c).hasWarning
        = true)
    (hs : (detectReversalPatterns reversalDetectionCfg st.entryPrice st.prevCandle c).severity
        = 3) :
    ∃ ex st2,
      processCandle sellMonitor5MinCfg reversalDetectionCfg bearishLarge st c
        = (some ex, st2) ∧
      ex.reason = "REVERSAL_DETECTED" ∧
      ex.exitPrice = c.close ∧
      st2.isMonitoring = false ∧
      (∀ lastCandle : ℕ,
        lookupWarning st.warningHistory
            (detectReversalPatterns reversalDetectionCfg st.entryPrice st.prevCandle c).pattern
          = some lastCandle →
        ((st.entryCandleCount + 1 : ℕ) : ℤ) - (lastCandle : ℤ)
            < reversalDetectionCfg.warningCooldownCandles →
        st2.warningHistory = st.warningHistory) := by
  have hsl : ¬ c.low ≤ st.slPrice := not_le.2 h4
  have hmax : ¬ st.entryCandleCount + 1 ≥ sellMonitor5MinCfg.maxCandles := not_le.2 h5
  have hauto : sellMonitor5MinCfg.autoExitLargeBearish = false := rfl
  have henab : reversalDetectionCfg.enabled = true := rfl
  have hao : reversalDetectionCfg.autoExitOnDanger = true := rfl
  unfold processCandle
  rw [if_neg (by simp [h1])]
  dsimp only
  rw [if_neg (by simp [hauto]), if_neg hsl, if_neg hmax]
  simp only [henab, hao, eq_self_iff_true, if_true, true_and, and_true]
  rw [if_pos hw, if_pos ⟨hw, hs⟩]
  refine ⟨_, _, rfl, rfl, rfl, rfl, ?_⟩
  intro lastCandle hlook hcool
  show logReversalWarning reversalDetectionCfg st.warningHistory (st.entryCandleCount + 1) _
      = st.warningHistory
  unfold logReversalWarning
  rw [hlook]
  dsimp only
  rw [if_pos hcool]

/-- The sell state for the C10 witness: entry 100 with GRAVESTONE already
warned at candle index 0. -/
def revState : SellMonitor5Min.SellState :=
  { SellMonitor5Min.startMonitoring SellMonitor5Min.sellMonitor5MinCfg 100 with
    warningHistory := [("GRAVESTONE", 0)] }

/-- A gravestone-doji candle during sell monitoring: tiny body, long upper
wick, no lower wick. -/
def revCandle : Candle :=
  { open_ := 100, high := 100.2, low := 100, close := 100.02, turnover := 500, trades := 5 }

/-- C10 witness: on the gravestone candle the position exits
REVERSAL_DETECTED even though GRAVESTONE was warned one candle ago (inside
the 3-candle cooldown), and the warning history is left untouched. -/
theorem C10_reversal_auto_exit_witness :
    (SellMonitor5Min.processCandle SellMonitor5Min.sellMonitor5MinCfg
        SellMonitor5Min.reversalDetectionCfg false revState revCandle).1.map
      SellMonitor5Min.TradeExit.reason = some "REVERSAL_DETECTED" ∧
    (SellMonitor5Min.processCandle SellMonitor5Min.sellMonitor5MinCfg
        SellMonitor5Min.reversalDetectionCfg false revState revCandle).2.warningHistory
      = [("GRAVESTONE", 0)] := by
  have hdet : SellMonitor5Min.detectReversalPatterns SellMonitor5Min.reversalDetectionCfg
      revState.entryPrice revState.prevCandle revCandle
      = { hasWarning := true, pattern := "GRAVESTONE", severity := 3 } := by
    norm_num [revState, SellMonitor5Min.startMonitoring,
      SellMonitor5Min.detectReversalPatterns, SellMonitor5Min.detectReversalPatternsE,
      SellMonitor5Min.checkBearishMarubozuE, SellMonitor5Min.checkGravestoneDojiE,
      SellMonitor5Min.checkShootingStarE, SellMonitor5Min.checkBearishEngulfingE,
      SellMonitor5Min.checkHighWaveDojiE, SellMonitor5Min.checkDarkCloudE,
      SellMonitor5Min.checkHammerE, divE, ratioOr, pctOr, SellMonitor5Min.noWarning,
      SellMonitor5Min.reversalDetectionCfg, revCandle, abs_of_nonneg]
  obtain ⟨ex, st2, heq, hr, -, -, hhist⟩ :=
    C10_reversal_auto_exit false revState revCandle rfl
      (by norm_num [revState, SellMonitor5Min.startMonitoring,
        SellMonitor5Min.sellMonitor5MinCfg, revCandle])
      (by norm_num [revState, SellMonitor5Min.startMonitoring,
        SellMonitor5Min.sellMonitor5MinCfg])
      (by rw [hdet]) (by rw [hdet])
  rw [heq]
  have hh := hhist 0 (by rw [hdet]; rfl)
    (by norm_num [revState, SellMonitor5Min.startMonitoring,
      SellMonitor5Min.reversalDetectionCfg])
  exact ⟨by simp [hr], by simpa [revState] using hh⟩

/-! ## Buy monitor (src/buy_monitor_5min.py) -/

/-- Python str.startswith, computed on the character lists. -/
def pyStartsWith (s p : String) : Bool :=
  p.data.isPrefixOf s.data

namespace BuyMonitor5Min

/-- The BUY_MONITOR_5MIN configuration surface used by process_candle. -/
structure BuyCfg where
  volumeThresholdFactor : ℚ
  maxMonitor : ℕ
  wickRejectionEnabled : Bool
  wickRejectionRatio : ℚ
  marubozuMinGainPercent : ℚ
  bearishMarubozuAbortEnabled : Bool
  bearishMarubozuUpperWickTolerance : ℚ
  marubozuMinLossPercent : ℚ
  immediateBuyEnabled : Bool
  requireLowVolumeForLimit : Bool
  requireMacdPositiveForLimit : Bool
  highVolumeDipAbortEnabled : Bool
  hammerAbortEnabled : Bool
  highWaveAbortEnabled : Bool
  highWaveMaxBodyPercent : ℚ
  highWaveMinWickRatio : ℚ
  abortLargeBearish : Bool
  requireStrongBullish : Bool
  deriving Repr

/-- The literal BUY_MONITOR_5MIN table of src/config.py; max_monitor is the
hard-coded 2 of BuyMonitor5Min.__init__. -/
def buyMonitor5MinCfg : BuyCfg :=
  { volumeThresholdFactor := 6/5, maxMonitor := 2,
    wickRejectionEnabled := true, wickRejectionRatio := 2,
    marubozuMinGainPercent := 1,
    bearishMarubozuAbortEnabled := true, bearishMarubozuUpperWickTolerance := 1/50,
    marubozuMinLossPercent := 2/5,
    immediateBuyEnabled := true,
    requireLowVolumeForLimit := true, requireMacdPositiveForLimit := true,
    highVolumeDipAbortEnabled := true,
    hammerAbortEnabled := true,
    highWaveAbortEnabled := false, highWaveMaxBodyPercent := 20, highWaveMinWickRatio := 2,
    abortLargeBearish := false, requireStrongBullish := false }

/-- The PATTERN_2BULL threshold block used by _validate_2bull_pattern. -/
structure Pattern2BullCfg where
  minGainPercent : ℚ
  minCandleVolume : ℚ
  minVolume : ℚ
  minTrades : ℚ
  deriving Repr

/-- The literal PATTERN_2BULL thresholds of src/config.py. -/
def pattern2BullCfg : Pattern2BullCfg :=
  { minGainPercent := 1, minCandleVolume := 100, minVolume := 15000, minTrades := 100 }

/-- BuyMonitor5Min._validate_2bull_pattern (src/buy_monitor_5min.py lines
607-653). -/
def validate2BullPattern (p2 : Pattern2BullCfg) (candles : List Candle) : Bool :=
  match candles with
  | [c1, c2] =>
    if ¬ (c1.close ≥ c1.open_ ∧ c2.close ≥ c2.open_) then false
    else if ¬ (c2.close > c1.close) then false
    else
      let totalGain := (c2.close - c1.open_) / c1.open_ * 100
      let totalVolume := c1.turnover + c2.turnover
      let totalTrades := c1.trades + c2.trades
      if totalGain < p2.minGainPercent then false
      else if c1.turnover < p2.minCandleVolume then false
      else if totalVolume < p2.minVolume then false
      else if totalTrades < p2.minTrades then false
      else true
  | _ => false

/-- BuyMonitor5Min._check_hammer_weakness (src/buy_monitor_5min.py lines
655-700), reduced to its detected flag; thresholds come from
REVERSAL_DETECTION. -/
def checkHammerWeakness (rv : SellMonitor5Min.RevCfg) (c : Candle) : Bool :=
  let bodySize0 := |c.close - c.open_|
  let bodySize := if bodySize0 = 0 then 1/10000 else bodySize0
  let upperWick := c.high - max c.close c.open_
  let lowerWick := min c.close c.open_ - c.low
  let lowerRatio := if bodySize > 0 then lowerWick / bodySize else 0
  let upperRatio := if bodySize > 0 then upperWick / bodySize else 0
  decide (lowerRatio ≥ rv.hammerMinLowerWickRatio ∧ upperRatio ≤ rv.hammerMaxUpperWickRatio)

/-- BuyMonitor5Min._check_high_wave_exhaustion (src/buy_monitor_5min.py
lines 702-757) in the Except monad: zero range and zero body are floored
to 0.0001 before any ratio, so no division can raise.  Returns
(detected, body percent, upper ratio, lower ratio). -/
def checkHighWaveExhaustionE (maxBodyPercent minWickRatio : ℚ) (c : Candle) :
    Except String (Bool × ℚ × ℚ × ℚ) := do
  let bodySize0 := |c.close - c.open_|
  let totalRange0 := c.high - c.low
  let totalRange := if totalRange0 = 0 then 1/10000 else totalRange0
  let bodySize := if bodySize0 = 0 then 1/10000 else bodySize0
  let upperWick := c.high - max c.close c.open_
  let lowerWick := min c.close c.open_ - c.low
  let bodyPercent ← (divE bodySize totalRange).map (· * 100)
  let upperRatio ← ratioOr upperWick bodySize 0
  let lowerRatio ← ratioOr lowerWick bodySize 0
  let detected := bodyPercent < maxBodyPercent ∧ upperRatio ≥ minWickRatio ∧
    lowerRatio ≥ minWickRatio
  pure (decide detected, bodyPercent, upperRatio, lowerRatio)

/-- The detected flag of _check_high_wave_exhaustion as used by
process_candle; by C9 the Except translation never errors, so the fallback
is unreachable. -/
def checkHighWaveExhaustion (maxBodyPercent minWickRatio : ℚ) (c : Candle) : Bool :=
  match checkHighWaveExhaustionE maxBodyPercent minWickRatio c with
  | Except.ok r => r.1
  | Except.error _ => false

/-- The buy monitor's per-asset mutable state (the MonitorState of the
spec); pattern candles are the stored [c1, c2] pair. -/
structure BuyState where
  isMonitoring : Bool
  monitorCount : ℕ
  avgVolume : ℚ
  beautyScore : ℚ
  patternC1 : Candle
  patternC2 : Candle
  patternGain : ℚ
  patternVolume : ℚ
  patternTrades : ℚ
  patternType : String
  limitOrders : List (ℚ × Candle)
  bought : Bool
  buyPrice : Option ℚ
  deriving DecidableEq, Repr

/-- BuyMonitor5Min.start_monitoring (src/buy_monitor_5min.py lines 86-113). -/
def startMonitoring (c1 c2 : Candle) (beautyScore avgVolume : ℚ)
    (patternType : String) : BuyState :=
  { isMonitoring := true, monitorCount := 0, avgVolume := avgVolume,
    beautyScore := beautyScore, patternC1 := c1, patternC2 := c2,
    patternGain := (c2.close - c1.open_) / c1.open_ * 100,
    patternVolume := c1.turnover + c2.turnover,
    patternTrades := c1.trades + c2.trades,
    patternType := patternType, limitOrders := [], bought := false, buyPrice := none }

/-- BuyMonitor5Min._abort_monitoring plus _stop_monitoring
(src/buy_monitor_5min.py lines 807-817 and 865-878): monitoring ends
unless the sell monitor is active. -/
def abortMonitoring (sellActive : Bool) (st : BuyState) (reason : String) :
    Option String × BuyState :=
  (some ("ABORT_" ++ reason),
   if ¬ sellActive then { st with isMonitoring := false } else st)

/-- BuyMonitor5Min._check_capital_commitment (src/buy_monitor_5min.py lines
561-582): pmCount is the position manager's 5min position count (none when
no manager is wired). -/
def checkCapitalCommitment (maxPositions : ℕ) (pmCount : Option ℕ) : Bool :=
  match pmCount with
  | some n => if n ≥ maxPositions then false else true
  | none => true

/-- BuyMonitor5Min._execute_immediate_buy (src/buy_monitor_5min.py lines
759-805): admission check, then a market buy at the candle's close and the
handoff out of buy monitoring. -/
def executeImmediateBuy (sellActive : Bool) (maxPositions : ℕ) (pmCount : Option ℕ)
    (st : BuyState) (c : Candle) (reason : String) : Option String × BuyState :=
  if ¬ checkCapitalCommitment maxPositions pmCount then
    abortMonitoring sellActive st "POSITION_LIMIT_REACHED"
  else
    (some ("IMMEDIATE_BUY_" ++ reason),
     { st with bought := true, buyPrice := some c.close, isMonitoring := false })

/-- BuyMonitor5Min._check_limit_fill (src/buy_monitor_5min.py lines
819-863). -/
def checkLimitFill (st : BuyState) (c : Candle) : Option String × BuyState :=
  match st.limitOrders with
  | (price, _) :: rest =>
    if c.high ≥ price then
      (some "BUY_FILLED",
       { st with limitOrders := rest, bought := true, buyPrice := some price,
                 isMonitoring := false })
    else (none, st)
  | [] => (none, st)

/-- BuyMonitor5Min._process_bullish_candle_1 (src/buy_monitor_5min.py lines
293-442): wick rejection, almost-marubozu immediate buy, perfect-beauty
immediate buy, recursive 2BULL restart, weak-continuation abort — in that
order. -/
def processBullishCandle1 (cfg : BuyCfg) (p2 : Pattern2BullCfg)
    (sellActive : Bool) (maxPositions : ℕ) (pmCount : Option ℕ)
    (st : BuyState) (c : Candle) : Option String × BuyState :=
  let bodySize := |c.close - c.open_|
  let upperWick := c.high - c.close
  let lowerWick := c.open_ - c.low
  if upperWick > 2 * bodySize then abortMonitoring sellActive st "WICK_REJECTION"
  else if upperWick = 0 ∧ lowerWick ≤ (1/50) * bodySize ∧
      (c.close - c.open_) / c.open_ * 100 ≥ cfg.marubozuMinGainPercent ∧
      cfg.immediateBuyEnabled then
    executeImmediateBuy sellActive maxPositions pmCount st c "MARUBOZU"
  else if BeautyScorer.calculate [st.patternC2, c] = 100 ∧ cfg.immediateBuyEnabled then
    executeImmediateBuy sellActive maxPositions pmCount st c "PERFECT_BEAUTY"
  else if c.close > st.patternC2.close then
    if validate2BullPattern p2 [st.patternC2, c] then
      let newBeauty := BeautyScorer.calculate [st.patternC2, c]
      let newAvgVolume := (st.patternC2.turnover + c.turnover) / 2
      (some "RECURSIVE_RESTART",
       startMonitoring st.patternC2 c newBeauty newAvgVolume "2BULL_5min")
    else abortMonitoring sellActive st "RECURSIVE_PATTERN_FAILED"
  else abortMonitoring sellActive st "WEAK_CONTINUATION"

/-- BuyMonitor5Min._process_bearish_candle_1 (src/buy_monitor_5min.py lines
444-559): wick rejection, bearish-marubozu abort, then the volume/MACD
gate for placing a resting limit at the candle's high. -/
def processBearishCandle1 (cfg : BuyCfg) (sellActive : Bool) (maxPositions : ℕ)
    (pmCount : Option ℕ) (st : BuyState) (c : Candle)
    (currentVolume volumeThreshold : ℚ) : Option String × BuyState :=
  let bodySize0 := |c.close - c.open_|
  let bodySize := if bodySize0 = 0 then 1/10000 else bodySize0
  let lowerWick := c.close - c.low
  let upperWick := c.high - c.open_
  if cfg.wickRejectionEnabled ∧ upperWick > cfg.wickRejectionRatio * bodySize then
    abortMonitoring sellActive st "WICK_REJECTION"
  else if cfg.bearishMarubozuAbortEnabled ∧ lowerWick = 0 ∧
      upperWick ≤ cfg.bearishMarubozuUpperWickTolerance * bodySize ∧
      (c.close - c.open_) / c.open_ * 100 ≤ -cfg.marubozuMinLossPercent then
    abortMonitoring sellActive st "BEARISH_MARUBOZU"
  else
    let volumeOk := if cfg.requireLowVolumeForLimit then
        decide (currentVolume < volumeThreshold) else true
    let macdOk := if cfg.requireMacdPositiveForLimit then decide (c.macdHist > 0) else true
    if volumeOk ∧ macdOk then
      if ¬ checkCapitalCommitment maxPositions pmCount then
        abortMonitoring sellActive st "POSITION_LIMIT_REACHED"
      else (none, { st with limitOrders := [(c.high, c)] })
    else if ¬ macdOk then abortMonitoring sellActive st "MACD_FAILED"
    else if cfg.highVolumeDipAbortEnabled then
      abortMonitoring sellActive st "HIGH_VOLUME_DIP"
    else if ¬ checkCapitalCommitment maxPositions pmCount then
      abortMonitoring sellActive st "POSITION_LIMIT_REACHED"
    else (none, { st with limitOrders := [(c.high, c)] })

/-- BuyMonitor5Min.process_candle (src/buy_monitor_5min.py lines 115-291)
on the 2BULL path.  sellActive is sell_monitor.is_monitoring,
bearishLarge the CandleSizeAnalyzer verdict of the large-bearish pre-check
(an external, database-dependent collaborator; the flag is off in
config.py); the EMA pattern branch is out of this model's scope and is
reported as a marker result. -/
def processCandle (cfg : BuyCfg) (p2 : Pattern2BullCfg)
    (rv : SellMonitor5Min.RevCfg) (maxPositions : ℕ) (pmCount : Option ℕ)
    (sellActive bearishLarge : Bool) (st : BuyState) (c : Candle) :
    Option String × BuyState :=
  if st.bought ∧ sellActive then (none, st)
  else if ¬ st.isMonitoring then (none, st)
  else if pyStartsWith st.patternType "EMA" then (some "EMA_ENTRY_PATH", st)
  else
    let fill := checkLimitFill st c
    if st.limitOrders ≠ [] ∧ fill.1 = some "BUY_FILLED" then fill
    else if st.monitorCount ≥ cfg.maxMonitor then abortMonitoring sellActive st "TIMEOUT"
    else
      let cnt := st.monitorCount + 1
      let st := { st with monitorCount := cnt }
      let isBullish := c.close ≥ c.open_
      let currentVolume := c.turnover
      let volumeThreshold := st.avgVolume * cfg.volumeThresholdFactor
      if cfg.abortLargeBearish ∧ c.close < c.open_ ∧ bearishLarge then
        abortMonitoring sellActive st "LARGE_BEARISH"
      else if cfg.highWaveAbortEnabled ∧
          checkHighWaveExhaustion cfg.highWaveMaxBodyPercent cfg.highWaveMinWickRatio c then
        abortMonitoring sellActive st "HIGH_WAVE_EXHAUSTION"
      else if ¬ isBullish ∧ cfg.hammerAbortEnabled ∧ checkHammerWeakness rv c then
        abortMonitoring sellActive st "HAMMER_WEAKNESS"
      else if cnt = 1 then
        if isBullish then processBullishCandle1 cfg p2 sellActive maxPositions pmCount st c
        else processBearishCandle1 cfg sellActive maxPositions pmCount st c
          currentVolume volumeThreshold
      else if cnt = 2 then
        match st.limitOrders with
        | [] => abortMonitoring sellActive st "NO_LIMIT_ORDER"
        | (price, _) :: _ =>
          if isBullish ∧ c.high ≥ price then checkLimitFill st c
          else if ¬ isBullish then
            if c.high ≥ price then checkLimitFill st c
            else (none, { st with limitOrders := [(c.high, c)] })
          else (none, st)
      else if cnt = 3 then
        match st.limitOrders with
        | [] => abortMonitoring sellActive st "NO_LIMIT_ORDER"
        | (price, _) :: _ =>
          if isBullish ∧ c.high ≥ price then checkLimitFill st c
          else abortMonitoring sellActive st "FINAL_CANDLE_FAILED"
      else (none, st)

end BuyMonitor5Min

open BuyMonitor5Min in
/-- C6: on the first monitoring candle of a 2BULL signal (config.py
settings, position cap 2), a bullish candle with upper wick greater than
twice the body aborts with WICK_REJECTION; and a bullish candle with no
upper wick, lower wick at most 2% of the body and gain at least the
configured marubozu minimum leads to an immediate buy at the candle's
close when the position limit is not reached (immediate buy is enabled in
config.py). -/
theorem C6_first_monitoring_candle (pmCount : Option ℕ) (bearishLarge : Bool)
    (st : BuyState) (c : Candle)
    (hb : st.bought = false)
    (hm : st.isMonitoring = true)
    (hp : st.patternType = "2BULL_5min")
    (hc : st.monitorCount = 0)
    (hl : st.limitOrders = [])
    (hbull : c.open_ ≤ c.close) :
    (c.high - c.close > 2 * |c.close - c.open_| →
      ∃ st2,
        processCandle buyMonitor5MinCfg pattern2BullCfg
            SellMonitor5Min.reversalDetectionCfg 2 pmCount false bearishLarge st c
          = (some "ABORT_WICK_REJECTION", st2) ∧
        st2.isMonitoring = false) ∧
    (c.high - c.close = 0 →
      c.open_ - c.low ≤ 1/50 * |c.close - c.open_| →
      (c.close - c.open_) / c.open_ * 100 ≥ buyMonitor5MinCfg.marubozuMinGainPercent →
      (∀ n, pmCount = some n → n < 2) →
      ∃ st2,
        processCandle buyMonitor5MinCfg pattern2BullCfg
            SellMonitor5Min.reversalDetectionCfg 2 pmCount false bearishLarge st c
          = (some "IMMEDIATE_BUY_MARUBOZU", st2) ∧
        st2.bought = true ∧ st2.buyPrice = some c.close ∧ st2.isMonitoring = false) := by
  have hstart : pyStartsWith "2BULL_5min" "EMA" = false := rfl
  have hhw : buyMonitor5MinCfg.highWaveAbortEnabled = false := rfl
  have hlb : buyMonitor5MinCfg.abortLargeBearish = false := rfl
  have himm : buyMonitor5MinCfg.immediateBuyEnabled = true := rfl
  have hred : processCandle buyMonitor5MinCfg pattern2BullCfg
        SellMonitor5Min.reversalDetectionCfg 2 pmCount false bearishLarge st c
      = processBullishCandle1 buyMonitor5MinCfg pattern2BullCfg false 2 pmCount
        { st with monitorCount := 1 } c := by
    unfold processCandle
    rw [if_neg (by simp), if_neg (by simp [hm]), if_neg (by simp [hp, hstart])]
    dsimp only
    rw [if_neg (by simp [hl]), if_neg (by rw [hc]; decide), hc]
    rw [if_neg (by simp [hlb]), if_neg (by simp [hhw]),
      if_neg (by intro hcond; exact hcond.1 hbull),
      if_pos rfl, if_pos hbull]
  constructor
  · intro hwick
    rw [hred]
    unfold processBullishCandle1
    rw [if_pos hwick]
    exact ⟨_, rfl, rfl⟩
  · intro hnowick hlower hgain hcap
    rw [hred]
    unfold processBullishCandle1
    rw [if_neg (by rw [hnowick]; exact not_lt.2 (by positivity))]
    rw [if_pos ⟨hnowick, hlower, hgain, by rw [himm]⟩]
    unfold executeImmediateBuy
    rw [if_neg ?hcommit]
    case hcommit =>
      simp only [not_not]
      unfold checkCapitalCommitment
      cases hpm : pmCount with
      | none => rfl
      | some n =>
        dsimp only
        rw [if_neg (not_le.2 (hcap n hpm))]
    exact ⟨_, rfl, rfl, rfl, rfl⟩

/-- Pattern candle 1 backing the C6 witness monitor state. -/
def buyPc1 : Candle :=
  { open_ := 100, high := 101, low := 100, close := 101, turnover := 9000, trades := 60 }

/-- Pattern candle 2 backing the C6 witness monitor state. -/
def buyPc2 : Candle :=
  { open_ := 101, high := 102, low := 101, close := 102, turnover := 9500, trades := 70 }

/-- The freshly started 2BULL monitor state of the C6 witness. -/
def buyStartState : BuyMonitor5Min.BuyState :=
  BuyMonitor5Min.startMonitoring buyPc1 buyPc2 70 9250 "2BULL_5min"

/-- A bullish first candle whose upper wick (1.5) is more than twice its
body (0.5). -/
def buyWickCandle : Candle :=
  { open_ := 100, high := 102, low := 100, close := 100.5, turnover := 8000, trades := 50 }

/-- A near-marubozu bullish first candle: no upper wick, lower wick 0.01 of
body 1.2, gain 1.2%. -/
def buyMaruCandle : Candle :=
  { open_ := 100, high := 101.2, low := 99.99, close := 101.2, turnover := 8000, trades := 50 }

/-- C6 witness: from the fresh 2BULL state with no open positions, the
wick-rejection candle aborts WICK_REJECTION and the near-marubozu candle
buys immediately at its close 101.2. -/
theorem C6_first_monitoring_candle_witness :
    (BuyMonitor5Min.processCandle BuyMonitor5Min.buyMonitor5MinCfg
        BuyMonitor5Min.pattern2BullCfg SellMonitor5Min.reversalDetectionCfg 2 (some 0)
        false false buyStartState buyWickCandle).1 = some "ABORT_WICK_REJECTION" ∧
    (BuyMonitor5Min.processCandle BuyMonitor5Min.buyMonitor5MinCfg
        BuyMonitor5Min.pattern2BullCfg SellMonitor5Min.reversalDetectionCfg 2 (some 0)
        false false buyStartState buyMaruCandle).1 = some "IMMEDIATE_BUY_MARUBOZU" ∧
    (BuyMonitor5Min.processCandle BuyMonitor5Min.buyMonitor5MinCfg
        BuyMonitor5Min.pattern2BullCfg SellMonitor5Min.reversalDetectionCfg 2 (some 0)
        false false buyStartState buyMaruCandle).2.buyPrice = some (101.2 : ℚ) := by
  obtain ⟨stW, heqW, -⟩ :=
    (C6_first_monitoring_candle (some 0) false buyStartState buyWickCandle rfl rfl rfl rfl rfl
      (by norm_num [buyWickCandle])).1
      (by norm_num [buyWickCandle, abs_of_nonneg])
  obtain ⟨stM, heqM, -, hbp, -⟩ :=
    (C6_first_monitoring_candle (some 0) false buyStartState buyMaruCandle rfl rfl rfl rfl rfl
      (by norm_num [buyMaruCandle])).2
      (by norm_num [buyMaruCandle])
      (by norm_num [buyMaruCandle, abs_of_nonneg])
      (by norm_num [buyMaruCandle, BuyMonitor5Min.buyMonitor5MinCfg])
      (by intro n hn; injection hn with hn2; omega)
  rw [heqW, heqM]
  refine ⟨rfl, rfl, by rw [hbp]; norm_num [buyMaruCandle]⟩

/-! ## Division-safety of the geometry computations (C9) -/

/-- BeautyScorer._calculate_volatility per-candle computation
(src/beauty_scorer.py lines 63-73) with its division tracked: the wick
share divides by the range only under the range > 0 guard. -/
def volatilityPtsE (c : Candle) : Except String ℚ := do
  let tr := c.high - c.low
  let body := |c.close - c.open_|
  let wickPct ← pctOr (tr - body) tr 0
  pure (if wickPct ≤ 20 then 10 else if wickPct ≤ 30 then 5 else 0)

lemma ratioOr_ok (a b d : ℚ) : ∃ v, ratioOr a b d = Except.ok v := by
  unfold ratioOr
  by_cases h : b > 0
  · exact ⟨a / b, by rw [if_pos h]; exact divE_of_ne a b (ne_of_gt h)⟩
  · exact ⟨d, by rw [if_neg h]; rfl⟩

lemma pctOr_ok (a b d : ℚ) : ∃ v, pctOr a b d = Except.ok v := by
  unfold pctOr
  by_cases h : b > 0
  · exact ⟨a / b * 100, by rw [if_pos h, divE_of_ne a b (ne_of_gt h)]; rfl⟩
  · exact ⟨d, by rw [if_neg h]; rfl⟩

lemma ite_ok {α : Type} (C : Prop) [Decidable C] (t e : Except String α)
    (ht : ∃ a, t = Except.ok a) (he : ∃ a, e = Except.ok a) :
    ∃ a, (if C then t else e) = Except.ok a := by
  split_ifs
  · exact ht
  · exact he

lemma volatilityPtsE_eq (c : Candle) :
    volatilityPtsE c = Except.ok (BeautyScorer.volatilityPts c) := by
  unfold volatilityPtsE pctOr BeautyScorer.volatilityPts
  dsimp only
  by_cases h : c.high - c.low > 0
  · rw [if_pos h, if_pos h, divE_of_ne _ _ (ne_of_gt h)]
    rfl
  · rw [if_neg h, if_neg h]
    rfl

namespace SellMonitor5Min

lemma checkBearishMarubozuE_ok (rv : RevCfg) (c : Candle) (b u l : ℚ)
    (ho : c.open_ ≠ 0) : ∃ v, checkBearishMarubozuE rv c b u l = Except.ok v := by
  unfold checkBearishMarubozuE
  rw [divE_of_ne _ _ ho]
  obtain ⟨v1, hv1⟩ := ratioOr_ok u b 0
  simp only [exceptBind_ok]
  rw [hv1]
  simp only [exceptBind_ok]
  split_ifs <;> exact ⟨_, rfl⟩

lemma checkGravestoneDojiE_ok (rv : RevCfg) (b u l bp : ℚ) :
    ∃ v, checkGravestoneDojiE rv b u l bp = Except.ok v := by
  unfold checkGravestoneDojiE
  obtain ⟨v1, hv1⟩ := ratioOr_ok u b 999
  obtain ⟨v2, hv2⟩ := ratioOr_ok l b 0
  rw [hv1, hv2]
  simp only [exceptBind_ok]
  split_ifs <;> exact ⟨_, rfl⟩

lemma checkShootingStarE_ok (rv : RevCfg) (b u l : ℚ) :
    ∃ v, checkShootingStarE rv b u l = Except.ok v := by
  unfold checkShootingStarE
  obtain ⟨v1, hv1⟩ := ratioOr_ok u b 0
  obtain ⟨v2, hv2⟩ := ratioOr_ok l b 0
  rw [hv1, hv2]
  simp only [exceptBind_ok]
  split_ifs <;> exact ⟨_, rfl⟩

lemma checkBearishEngulfingE_ok (rv : RevCfg) (c prev : Candle) (b : ℚ) :
    ∃ v, checkBearishEngulfingE rv c prev b = Except.ok v := by
  unfold checkBearishEngulfingE
  dsimp only
  obtain ⟨v1, hv1⟩ := ratioOr_ok b (|prev.close - prev.open_|) 0
  rw [hv1]
  simp only [exceptBind_ok]
  split_ifs <;> exact ⟨_, rfl⟩

lemma checkHighWaveDojiE_ok (rv : RevCfg) (b u l bp : ℚ) :
    ∃ v, checkHighWaveDojiE rv b u l bp = Except.ok v := by
  unfold checkHighWaveDojiE
  obtain ⟨v1, hv1⟩ := ratioOr_ok u b 999
  obtain ⟨v2, hv2⟩ := ratioOr_ok l b 999
  rw [hv1, hv2]
  simp only [exceptBind_ok]
  split_ifs <;> exact ⟨_, rfl⟩

lemma checkDarkCloudE_ok (rv : RevCfg) (c prev : Candle) :
    ∃ v, checkDarkCloudE rv c prev = Except.ok v := by
  unfold checkDarkCloudE
  dsimp only
  obtain ⟨v1, hv1⟩ := ratioOr_ok (prev.close - c.close) (|prev.close - prev.open_|) 0
  rw [hv1]
  simp only [exceptBind_ok]
  split_ifs <;> exact ⟨_, rfl⟩

lemma checkHammerE_ok (rv : RevCfg) (b u l : ℚ) :
    ∃ v, checkHammerE rv b u l = Except.ok v := by
  unfold checkHammerE
  obtain ⟨v1, hv1⟩ := ratioOr_ok l b 0
  obtain ⟨v2, hv2⟩ := ratioOr_ok u b 0
  rw [hv1, hv2]
  simp only [exceptBind_ok]
  split_ifs <;> exact ⟨_, rfl⟩

set_option maxHeartbeats 2000000 in
lemma detectReversalPatternsE_ok (rv : RevCfg) (entryPrice : ℚ)
    (prevCandle : Option Candle) (c : Candle)
    (he : entryPrice ≠ 0) (ho : 0 < c.open_) :
    ∃ r, detectReversalPatternsE rv entryPrice prevCandle c = Except.ok r := by
  unfold detectReversalPatternsE
  dsimp only
  obtain ⟨v0, hv0⟩ := pctOr_ok
    (if |c.close - c.open_| = 0 then 1/10000 else |c.close - c.open_|) c.open_ 0
  obtain ⟨v1, hv1⟩ := checkBearishMarubozuE_ok rv c
    (if |c.close - c.open_| = 0 then 1/10000 else |c.close - c.open_|)
    (c.high - max c.close c.open_) (min c.close c.open_ - c.low) (ne_of_gt ho)
  obtain ⟨v2, hv2⟩ := checkGravestoneDojiE_ok rv
    (if |c.close - c.open_| = 0 then 1/10000 else |c.close - c.open_|)
    (c.high - max c.close c.open_) (min c.close c.open_ - c.low) v0
  obtain ⟨v3, hv3⟩ := checkShootingStarE_ok rv
    (if |c.close - c.open_| = 0 then 1/10000 else |c.close - c.open_|)
    (c.high - max c.close c.open_) (min c.close c.open_ - c.low)
  obtain ⟨v4, hv4⟩ := checkBearishEngulfingE_ok rv c (prevCandle.getD c)
    (if |c.close - c.open_| = 0 then 1/10000 else |c.close - c.open_|)
  obtain ⟨v5, hv5⟩ := checkHighWaveDojiE_ok rv
    (if |c.close - c.open_| = 0 then 1/10000 else |c.close - c.open_|)
    (c.high - max c.close c.open_) (min c.close c.open_ - c.low) v0
  obtain ⟨v6, hv6⟩ := checkDarkCloudE_ok rv c (prevCandle.getD c)
  obtain ⟨v7, hv7⟩ := checkHammerE_ok rv
    (if |c.close - c.open_| = 0 then 1/10000 else |c.close - c.open_|)
    (c.high - max c.close c.open_) (min c.close c.open_ - c.low)
  rw [hv0]
  simp only [exceptPure_eq, exceptBind_ok]
  rw [hv1, hv2, hv3, hv4, hv5, hv6, hv7, divE_of_ne _ _ he]
  simp only [exceptPure_eq, exceptBind_ok]
  repeat' first
  | exact ⟨_, rfl⟩
  | apply ite_ok

end SellMonitor5Min

namespace BuyMonitor5Min

lemma checkHighWaveExhaustionE_ok (maxBodyPercent minWickRatio : ℚ) (c : Candle) :
    ∃ v, checkHighWaveExhaustionE maxBodyPercent minWickRatio c = Except.ok v := by
  unfold checkHighWaveExhaustionE
  dsimp only
  have hr : (if c.high - c.low = 0 then (1 : ℚ)/10000 else c.high - c.low) ≠ 0 := by
    split_ifs with h
    · norm_num
    · exact h
  rw [divE_of_ne _ _ hr]
  obtain ⟨v1, hv1⟩ := ratioOr_ok (c.high - max c.close c.open_)
    (if |c.close - c.open_| = 0 then 1/10000 else |c.close - c.open_|) 0
  obtain ⟨v2, hv2⟩ := ratioOr_ok (min c.close c.open_ - c.low)
    (if |c.close - c.open_| = 0 then 1/10000 else |c.close - c.open_|) 0
  simp only [exceptMap_ok, exceptBind_ok]
  rw [hv1, hv2]
  simp only [exceptBind_ok]
  exact ⟨_, rfl⟩

end BuyMonitor5Min

/-- C9: the wick/body and body/range ratio computations of the sell
monitor's reversal detection, the buy monitor's high-wave exhaustion
check, and the beauty scorer's volatility term never divide by zero: zero
bodies and zero ranges are floored to 0.0001 and price divisions are
guarded, so on any candle with a positive open price (and a positive
entry price for the monitored position) every computation returns a value
instead of raising ZeroDivisionError — a doji or zero-range candle is
degenerate but valid. -/
theorem C9_no_division_by_zero :
    (∀ (rv : SellMonitor5Min.RevCfg) (entryPrice : ℚ) (prevCandle : Option Candle)
        (c : Candle), 0 < entryPrice → 0 < c.open_ →
      (SellMonitor5Min.detectReversalPatternsE rv entryPrice prevCandle c).isOk = true) ∧
    (∀ (maxBodyPercent minWickRatio : ℚ) (c : Candle),
      (BuyMonitor5Min.checkHighWaveExhaustionE maxBodyPercent minWickRatio c).isOk = true) ∧
    (∀ c : Candle, (volatilityPtsE c).isOk = true) := by
  refine ⟨?_, ?_, ?_⟩
  · intro rv entryPrice prevCandle c he ho
    obtain ⟨r, hr⟩ := SellMonitor5Min.detectReversalPatternsE_ok rv entryPrice prevCandle c
      (ne_of_gt he) ho
    rw [hr]
    rfl
  · intro maxBodyPercent minWickRatio c
    obtain ⟨v, hv⟩ := BuyMonitor5Min.checkHighWaveExhaustionE_ok maxBodyPercent minWickRatio c
    rw [hv]
    rfl
  · intro c
    rw [volatilityPtsE_eq]
    rfl

/-- A zero-range doji candle: open = high = low = close. -/
def dojiCandle : Candle :=
  { open_ := 100, high := 100, low := 100, close := 100, turnover := 0, trades := 0 }

/-- C9 witness: the degenerate zero-range doji at price 100 with entry 100
is processed without any division by zero in all three computations. -/
theorem C9_no_division_by_zero_witness :
    (SellMonitor5Min.detectReversalPatternsE SellMonitor5Min.reversalDetectionCfg 100 none
        dojiCandle).isOk = true ∧
    (BuyMonitor5Min.checkHighWaveExhaustionE 20 2 dojiCandle).isOk = true ∧
    (volatilityPtsE dojiCandle).isOk = true :=
  ⟨C9_no_division_by_zero.1 SellMonitor5Min.reversalDetectionCfg 100 none dojiCandle
      (by norm_num) (by norm_num [dojiCandle]),
    C9_no_division_by_zero.2.1 20 2 dojiCandle,
    C9_no_division_by_zero.2.2 dojiCandle⟩

end TradingBot
